import Mathlib

/-!
Verification development for the iced-sctk compositor-integration layer.

The definitions below are a shallow embedding of the Rust sources:
protocol object handles (`WlSurface`, `WlKeyboard`, ... ids) are modelled by
their stable `ObjectId` (a `Nat`), `Vec`/`HashMap` fields by lists and
association lists (association-list order stands in for the unspecified
map iteration order), and fallible operations (`unwrap`, `todo!`) by
`Option` with `none` for a panic.  Functions keep the names of the Rust
functions they embed; each is annotated with its source location.
-/

namespace IcedSctk

/-- Protocol object identity (`wayland_backend::client::ObjectId`). -/
abbrev ObjectId := Nat

/-- Logical size in pixels (`LogicalSize<u32>` from `src/dpi.rs`); only the
width/height pair matters to the claims. -/
abbrev Size := Nat × Nat

/-- Keyboard modifier state as tracked by sctk
(`sctk::seat::keyboard::Modifiers`). -/
structure Modifiers where
  ctrl : Bool := false
  alt : Bool := false
  shift : Bool := false
  caps_lock : Bool := false
  logo : Bool := false
  num_lock : Bool := false
  deriving DecidableEq, Repr

/-- Key press data (`sctk::seat::keyboard::KeyEvent`); the `utf8` text field
is irrelevant to the claims and omitted. -/
structure KeyEvent where
  time : Nat := 0
  raw_code : Nat := 0
  keysym : Nat := 0
  deriving DecidableEq, Repr

/-- Window configure payload (`sctk ... window::WindowConfigure`): only
`new_size` and the result of the `is_resizing()` state query are consulted
by the embedded code; the remaining decoration/state flags are omitted. -/
structure WindowConfigure where
  new_size : Option Size := none
  is_resizing : Bool := false
  deriving DecidableEq, Repr

/-- Layer surface configure payload (`LayerSurfaceConfigure`). -/
structure LayerSurfaceConfigure where
  new_size : Size := (0, 0)
  deriving DecidableEq, Repr

/-- Popup configure payload (`sctk ... popup::PopupConfigure`). -/
structure PopupConfigure where
  width : Int := 0
  height : Int := 0
  deriving DecidableEq, Repr

/-- Seat event variants from `src/sctk_event.rs` (`SeatEventVariant`).
The capability payloads carry the id of the bound input object. -/
inductive SeatEventVariant where
  | new
  | remove
  | newCapabilityKeyboard (id : ObjectId)
  | newCapabilityPointer (id : ObjectId)
  | removeCapabilityKeyboard (id : ObjectId)
  | removeCapabilityPointer (id : ObjectId)
  deriving DecidableEq, Repr

/-- Keyboard event variants (`KeyboardEventVariant` in `src/sctk_event.rs`). -/
inductive KeyboardEventVariant where
  | leave (id : ObjectId)
  | enter (id : ObjectId)
  | press (e : KeyEvent)
  | release (e : KeyEvent)
  | modifiers (m : Modifiers)
  deriving DecidableEq, Repr

/-- Axis source classification (`wl_pointer::AxisSource`). -/
inductive AxisSource where
  | wheel
  | wheelTilt
  | finger
  | continuous
  deriving DecidableEq, Repr

/-- Pointer event kinds (`sctk::seat::pointer::PointerEventKind`); the
axis payload keeps the horizontal/vertical deltas and the source
classification, collapsing `AxisScroll` to a single integer delta. -/
inductive PointerEventKind where
  | enter (serial : Nat)
  | leave (serial : Nat)
  | motion (time : Nat)
  | press (time : Nat) (button : Nat) (serial : Nat)
  | release (time : Nat) (button : Nat) (serial : Nat)
  | axis (time : Nat) (horizontal : Int) (vertical : Int) (source : Option AxisSource)
  deriving DecidableEq, Repr

/-- Pointer event (`sctk::seat::pointer::PointerEvent`): target surface,
position and kind. -/
structure PointerEvent where
  surface : ObjectId
  position : Int × Int := (0, 0)
  kind : PointerEventKind
  deriving DecidableEq, Repr

/-- Window event variants used by the embedded code
(`WindowEventVariant` in `src/sctk_event.rs`); the event-loop revision
pushes `Configure(configure)` with a single payload. Constructors not
produced by the embedded functions are omitted. -/
inductive WindowEventVariant where
  | close
  | configure (c : WindowConfigure)
  deriving DecidableEq, Repr

/-- Layer surface event variants (`LayerSurfaceEventVariant`); the
`src/handlers/shell/layer.rs` revision pushes `Configure(configure)` with a
single payload. -/
inductive LayerSurfaceEventVariant where
  | done
  | configure (c : LayerSurfaceConfigure)
  deriving DecidableEq, Repr

/-- Popup event variants (`PopupEventVariant`); the `first` flag of
`Configure` records whether this was the popup's first configure. The
`WlSurface` handle argument of the Rust `Configure` variant is the surface
whose id is already carried beside the variant and is omitted. -/
inductive PopupEventVariant where
  | done
  | configure (c : PopupConfigure) (first : Bool)
  deriving DecidableEq, Repr

/-- Tagged events of the shared sink (`SctkEvent` in `src/sctk_event.rs`).
Output events are not touched by any claim and are omitted. -/
inductive SctkEvent where
  | seatEvent (variant : SeatEventVariant) (id : ObjectId)
  | pointerEvent (variant : PointerEvent) (ptr_id : ObjectId) (seat_id : ObjectId)
  | keyboardEvent (variant : KeyboardEventVariant) (kbd_id : ObjectId) (seat_id : ObjectId)
  | windowEvent (variant : WindowEventVariant) (id : ObjectId)
  | layerSurfaceEvent (variant : LayerSurfaceEventVariant) (id : ObjectId)
  | popupEvent (variant : PopupEventVariant) (toplevel_id : ObjectId) (parent_id : ObjectId)
      (id : ObjectId)
  | draw (id : ObjectId)
  | scaleFactorChanged (factor : Nat) (id : ObjectId) (inner_size : Size)
  deriving DecidableEq, Repr

/-- Parent reference of a popup (`SctkSurface` in `src/event_loop/state.rs`):
the proxy handle is represented by its surface id. -/
inductive SctkSurface where
  | layerSurface (id : ObjectId)
  | window (id : ObjectId)
  | popup (id : ObjectId)
  deriving DecidableEq, Repr

/-- Surface id of an `SctkSurface` (`SctkSurface::wl_surface().id()`). -/
def SctkSurface.wl_surface_id : SctkSurface → ObjectId
  | .layerSurface id => id
  | .window id => id
  | .popup id => id

/-- Popup record (`SctkPopup` in `src/event_loop/state.rs`): its own surface
id (`popup.wl_surface().id()`), its parent surface and the root toplevel.
The protocol handles, positioner and size fields are not consulted by the
cascade and are omitted. -/
structure SctkPopup where
  popup : ObjectId
  parent : SctkSurface
  toplevel : ObjectId
  last_configure : Option PopupConfigure := none
  deriving DecidableEq, Repr

/-!
Section: Popup close cascade

Shallow embedding of `PopupHandler::done` from
`src/handlers/shell/xdg_popup.rs` (lines 39-78).  The handler keeps a
`to_destroy` stack of surface ids (a `Vec` used from its back: `last`,
`push`, `pop`), looks each id up in the `self.popups` `Vec`, removes the
found record, and on a popup-parented record pushes the record back and
looks the *parent* up with `.unwrap()`.  The Rust loop's possible panic
(`unwrap` on a missing parent) and potential divergence are modelled by
fuel; `none` means the handler does not complete normally.
-/

/-- One-to-one translation of the `while let` loop of `done`.  State:
the popup registry, the accumulated `sctk_events` pushes, and the
`to_destroy` stack (`Vec` back = Lean list back). -/
def doneLoop (fuel : Nat) (popups : List SctkPopup) (events : List SctkEvent)
    (to_destroy : List ObjectId) : Option (List SctkPopup × List SctkEvent) :=
  match fuel with
  | 0 => none
  | fuel + 1 =>
    match to_destroy.getLast? with
    | none => some (popups, events)
    | some id =>
      match popups.findIdx? (fun p => p.popup == id) with
      | some i =>
        match popups[i]? with
        | none => none
        | some popup_to_destroy =>
          let popups' := popups.eraseIdx i
          match popup_to_destroy.parent with
          | .layerSurface _ | .window _ =>
            -- `popup_to_destroy.popup.xdg_popup().destroy()` is a protocol
            -- request with no bearing on the registry state.
            let events' := events ++ [SctkEvent.popupEvent .done popup_to_destroy.toplevel
              popup_to_destroy.parent.wl_surface_id popup_to_destroy.popup]
            doneLoop fuel popups' events' to_destroy.dropLast
          | .popup parent_surface =>
            let popups'' := popups' ++ [popup_to_destroy]
            match popups''.find? (fun p => p.popup == parent_surface) with
            | none => none  -- `.unwrap()` panics
            | some popup_to_destroy_first =>
              doneLoop fuel popups'' events (to_destroy ++ [popup_to_destroy_first.popup])
      | none => doneLoop fuel popups events to_destroy.dropLast

/-- `PopupHandler::done` for the popup whose surface id is `popup_id`:
runs the destruction loop starting from `to_destroy = vec![popup_id]`.
The fuel bound is generous enough that exhaustion only occurs when the
Rust loop diverges. -/
def popup_done (popups : List SctkPopup) (events : List SctkEvent) (popup_id : ObjectId) :
    Option (List SctkPopup × List SctkEvent) :=
  doneLoop ((popups.length + 1) * (popups.length + 1) * (popups.length + 1) + 1)
    popups events [popup_id]

/-!
Section: Surface and seat records, aggregate state
-/

/-- Seat record (`SctkSeat` in `src/event_loop/state.rs`); bound protocol
objects are represented by their ids. -/
structure SctkSeat where
  seat : ObjectId
  kbd : Option ObjectId := none
  kbd_focus : Option ObjectId := none
  last_kbd_press : Option KeyEvent := none
  ptr : Option ObjectId := none
  ptr_focus : Option ObjectId := none
  last_ptr_press : Option (Nat × Nat × Nat) := none
  touch : Option ObjectId := none
  data_device : Option ObjectId := none
  modifiers : Modifiers := {}
  deriving DecidableEq, Repr

/-- Window record (`SctkWindow` in `src/event_loop/state.rs`); the protocol
handles and the pending-request buffer are not consulted by the embedded
event-loop path and are omitted. -/
structure SctkWindow where
  requested_size : Option Size := none
  current_size : Option Size := none
  last_configure : Option WindowConfigure := none
  deriving DecidableEq, Repr

/-- Layer surface record (`SctkLayerSurface`); the anchor/margin/layer
settings play no role in the embedded handlers and are omitted. -/
structure SctkLayerSurface where
  surface : ObjectId
  requested_size : Option Size := none
  current_size : Option Size := none
  last_configure : Option LayerSurfaceConfigure := none
  deriving DecidableEq, Repr

/-- Pending update to a surface requested by the user
(`SurfaceUserRequest` in `src/sctk_event.rs`). -/
structure SurfaceUserRequest where
  redraw_requested : Bool := false
  refresh_frame : Bool := false
  deriving DecidableEq, Repr

instance : Inhabited SurfaceUserRequest := ⟨{}⟩

/-- Coalesced surface update coming from the compositor
(`SurfaceCompositorUpdate` in `src/sctk_event.rs`).  The `i32` scale factor
is modelled as a positive `Nat`. -/
structure SurfaceCompositorUpdate where
  configure : Option WindowConfigure := none
  first : Bool := false
  scale_factor : Option Nat := none
  close_window : Bool := false
  deriving DecidableEq, Repr

instance : Inhabited SurfaceCompositorUpdate := ⟨{}⟩

/-- The mutable aggregate dispatched against by every protocol handler
(`SctkState` in `src/event_loop/state.rs`).  `HashMap` fields are modelled
as association lists whose order stands in for the map's unspecified
iteration order; `T` is the user-event payload type. -/
structure SctkStateM (T : Type) where
  seats : List SctkSeat := []
  windows : List (ObjectId × SctkWindow) := []
  layer_surfaces : List SctkLayerSurface := []
  popups : List SctkPopup := []
  window_compositor_updates : List (ObjectId × SurfaceCompositorUpdate) := []
  window_user_requests : List (ObjectId × SurfaceUserRequest) := []
  sctk_events : List SctkEvent := []
  pending_user_events : List (Nat × T) := []

/-!
Section: Shell handlers

`LayerShellHandler::configure` (`src/handlers/shell/layer.rs`, lines 36-58)
and `PopupHandler::configure` (`src/handlers/shell/xdg_popup.rs`, lines
9-37).
-/

/-- `LayerShellHandler::configure`: looks the layer surface up and, when
found, unconditionally pushes a `Configure` event followed by a `Draw`
event for the surface.  No size or scale comparison is made and the record
itself is left untouched. -/
def layer_surface_configure (st : SctkStateM T) (surface_id : ObjectId)
    (configure : LayerSurfaceConfigure) : SctkStateM T :=
  match st.layer_surfaces.find? (fun s => s.surface == surface_id) with
  | none => st
  | some layer =>
    let id := layer.surface
    { st with sctk_events := st.sctk_events
        ++ [SctkEvent.layerSurfaceEvent (.configure configure) id, SctkEvent.draw id] }

/-- `PopupHandler::configure`: records the configure on the popup
(marking whether it is the first one) and pushes a `PopupEvent::Configure`
carrying the `first` flag. -/
def popup_configure (st : SctkStateM T) (popup_id : ObjectId)
    (configure : PopupConfigure) : SctkStateM T :=
  match st.popups.findIdx? (fun s => s.popup == popup_id) with
  | none => st
  | some i =>
    match st.popups[i]? with
    | none => st  -- unreachable: `findIdx?` returned a valid index
    | some sctk_popup =>
      let first := sctk_popup.last_configure.isNone
      let popups := st.popups.set i { sctk_popup with last_configure := some configure }
      { st with
        popups := popups,
        sctk_events := st.sctk_events ++ [SctkEvent.popupEvent
          (.configure configure first) sctk_popup.toplevel
          sctk_popup.parent.wl_surface_id popup_id] }

/-!
Section: Seat and input handlers

`SeatHandler` (`src/handlers/seat/seat.rs`), `KeyboardHandler`
(`src/handlers/seat/keyboard.rs`) and `PointerHandler`
(`src/handlers/seat/pointer.rs`).  Every keyboard handler first finds the
seat owning the keyboard via `iter_mut().enumerate().find_map(..)` and
treats it as active exactly when its index is `0`; the bookkeeping on the
seat record happens regardless, the sink push only when active.
-/

/-- Seat capabilities (`sctk::seat::Capability`). -/
inductive Capability where
  | keyboard
  | pointer
  | touch
  deriving DecidableEq, Repr

/-- `SeatHandler::new_seat`: pushes a `SeatEvent::New` and appends a fresh
seat record at the back of the seat list. -/
def new_seat (st : SctkStateM T) (seat : ObjectId) : SctkStateM T :=
  { st with
    sctk_events := st.sctk_events ++ [SctkEvent.seatEvent .new seat],
    seats := st.seats ++ [{ seat }] }

/-- `SeatHandler::new_capability`: binds the new input object on the seat's
record and pushes a `NewCapability` event; this happens for every tracked
seat, not only the active one.  `new_obj` is the id of the object returned
by the successful `get_keyboard`/`get_pointer` call; the touch capability is
a `TODO` in the source and does nothing. -/
def new_capability (st : SctkStateM T) (seat : ObjectId) (capability : Capability)
    (new_obj : ObjectId) : SctkStateM T :=
  match st.seats.findIdx? (fun s => s.seat == seat) with
  | none => st
  | some i =>
    match st.seats[i]? with
    | none => st  -- unreachable: `findIdx?` returned a valid index
    | some my_seat =>
      match capability with
      | .keyboard =>
        { st with
          sctk_events := st.sctk_events
            ++ [SctkEvent.seatEvent (.newCapabilityKeyboard new_obj) seat],
          seats := st.seats.set i { my_seat with kbd := some new_obj } }
      | .pointer =>
        { st with
          sctk_events := st.sctk_events
            ++ [SctkEvent.seatEvent (.newCapabilityPointer new_obj) seat],
          seats := st.seats.set i { my_seat with ptr := some new_obj } }
      | .touch => st

/-- The seat lookup shared by all five keyboard callbacks:
`self.seats.iter_mut().enumerate().find_map(|(i, s)| ..)` returning the
index and record of the first seat whose bound keyboard is `keyboard`. -/
def findKbdSeat (seats : List SctkSeat) (keyboard : ObjectId) : Option (Nat × SctkSeat) :=
  seats.enum.find? (fun p => p.2.kbd == some keyboard)

/-- `KeyboardHandler::enter`: replaces the seat's keyboard focus with the
entered surface; pushes an `Enter` event only for the active seat. -/
def keyboard_enter (st : SctkStateM T) (keyboard : ObjectId) (surface : ObjectId) :
    SctkStateM T :=
  match findKbdSeat st.seats keyboard with
  | none => st
  | some (i, my_seat) =>
    let is_active := i == 0
    let st := { st with seats := st.seats.set i { my_seat with kbd_focus := some surface } }
    if is_active then
      { st with sctk_events := st.sctk_events
          ++ [SctkEvent.keyboardEvent (.enter surface) keyboard my_seat.seat] }
    else st

/-- `KeyboardHandler::leave`: *replaces* the seat's keyboard focus with the
departed surface (it does not clear it); pushes a `Leave` event only for
the active seat. -/
def keyboard_leave (st : SctkStateM T) (keyboard : ObjectId) (surface : ObjectId) :
    SctkStateM T :=
  match findKbdSeat st.seats keyboard with
  | none => st
  | some (i, my_seat) =>
    let is_active := i == 0
    let st := { st with seats := st.seats.set i { my_seat with kbd_focus := some surface } }
    if is_active then
      { st with sctk_events := st.sctk_events
          ++ [SctkEvent.keyboardEvent (.leave surface) keyboard my_seat.seat] }
    else st

/-- `KeyboardHandler::press_key`: records the key as the seat's last press;
pushes a `Press` event only for the active seat. -/
def press_key (st : SctkStateM T) (keyboard : ObjectId) (event : KeyEvent) :
    SctkStateM T :=
  match findKbdSeat st.seats keyboard with
  | none => st
  | some (i, my_seat) =>
    let is_active := i == 0
    let st := { st with seats := st.seats.set i { my_seat with last_kbd_press := some event } }
    if is_active then
      { st with sctk_events := st.sctk_events
          ++ [SctkEvent.keyboardEvent (.press event) keyboard my_seat.seat] }
    else st

/-- `KeyboardHandler::release_key`: no bookkeeping; pushes a `Release`
event only for the active seat. -/
def release_key (st : SctkStateM T) (keyboard : ObjectId) (event : KeyEvent) :
    SctkStateM T :=
  match findKbdSeat st.seats keyboard with
  | none => st
  | some (i, my_seat) =>
    let is_active := i == 0
    if is_active then
      { st with sctk_events := st.sctk_events
          ++ [SctkEvent.keyboardEvent (.release event) keyboard my_seat.seat] }
    else st

/-- `KeyboardHandler::update_modifiers`: no bookkeeping on the seat record;
pushes a `Modifiers` event only for the active seat. -/
def update_modifiers (st : SctkStateM T) (keyboard : ObjectId) (modifiers : Modifiers) :
    SctkStateM T :=
  match findKbdSeat st.seats keyboard with
  | none => st
  | some (i, my_seat) =>
    let is_active := i == 0
    if is_active then
      { st with sctk_events := st.sctk_events
          ++ [SctkEvent.keyboardEvent (.modifiers modifiers) keyboard my_seat.seat] }
    else st

/-- Body of the `for e in events` loop of `PointerHandler::pointer_frame`:
pushes every event to the sink and updates the seat's pointer focus
(`Enter` stores the surface, `Leave` clears it) and last press. -/
def pointer_frame_loop (my_seat : SctkSeat) (ptr_id : ObjectId)
    (evs : List PointerEvent) (events : List SctkEvent) : SctkSeat × List SctkEvent :=
  match evs with
  | [] => (my_seat, events)
  | e :: rest =>
    let events := events ++ [SctkEvent.pointerEvent e ptr_id my_seat.seat]
    let my_seat :=
      match e.kind with
      | .enter _ => { my_seat with ptr_focus := some e.surface }
      | .leave _ => { my_seat with ptr_focus := none }
      | .press time button serial =>
        { my_seat with last_ptr_press := some (time, button, serial) }
      | _ => my_seat
    pointer_frame_loop my_seat ptr_id rest events

/-- `PointerHandler::pointer_frame` (`src/handlers/seat/pointer.rs`,
lines 10-50): finds the seat owning the pointer (no active-seat filter for
pointer events) and runs the event loop body over the batch. -/
def pointer_frame (st : SctkStateM T) (pointer : ObjectId) (events : List PointerEvent) :
    SctkStateM T :=
  match st.seats.findIdx? (fun s => s.ptr == some pointer) with
  | none => st
  | some i =>
    match st.seats[i]? with
    | none => st  -- unreachable: `findIdx?` returned a valid index
    | some my_seat =>
      let (my_seat, evs) := pointer_frame_loop my_seat pointer events st.sctk_events
      { st with seats := st.seats.set i my_seat, sctk_events := evs }

/-!
Section: Native-event projector

Shallow embedding of `SctkEvent::to_native` from `src/sctk_event.rs`
(lines 273-427).  The conversion tables it calls live in
`src/conversion.rs`, which is not among the sources; those are modelled
from the spec (§4.5 and the out-of-scope list in §1) and marked as such.
-/

/-- Application-side surface identity (`SurfaceIdWrapper` in
`src/application.rs`): the logical surface id tagged with its kind. -/
inductive SurfaceIdWrapper where
  | layerSurface (id : Nat)
  | window (id : Nat)
  | popup (id : Nat)
  deriving DecidableEq, Repr

/-- `SurfaceIdWrapper::inner()`. -/
def SurfaceIdWrapper.inner : SurfaceIdWrapper → Nat
  | .layerSurface id => id
  | .window id => id
  | .popup id => id

/-- Toolkit-side modifier flags (`iced_native::keyboard::Modifiers`). -/
structure NativeModifiers where
  shift : Bool := false
  ctrl : Bool := false
  alt : Bool := false
  logo : Bool := false
  deriving DecidableEq, Repr

/-- Toolkit mouse buttons (`iced_native::mouse::Button`). -/
inductive MouseButton where
  | left
  | right
  | middle
  deriving DecidableEq, Repr

/-- Scroll delta of a wheel event (`iced_native::mouse::ScrollDelta`):
discrete lines for wheel-like sources, continuous pixels otherwise. -/
inductive ScrollDelta where
  | lines (x : Int) (y : Int)
  | pixels (x : Int) (y : Int)
  deriving DecidableEq, Repr

/-- Toolkit mouse events (`iced_native::mouse::Event`). -/
inductive MouseNativeEvent where
  | cursorEntered
  | cursorLeft
  | cursorMoved (position : Int × Int)
  | buttonPressed (b : MouseButton)
  | buttonReleased (b : MouseButton)
  | wheelScrolled (delta : ScrollDelta)
  deriving DecidableEq, Repr

/-- Toolkit keyboard events (`iced_native::keyboard::Event`); key codes are
opaque numbers. -/
inductive KeyboardNativeEvent where
  | keyPressed (key_code : Nat) (modifiers : NativeModifiers)
  | keyReleased (key_code : Nat) (modifiers : NativeModifiers)
  | modifiersChanged (m : NativeModifiers)
  deriving DecidableEq, Repr

/-- Toolkit window events (`iced_native::window::Event`). -/
inductive WindowNativeEvent where
  | unfocused
  | focused
  | closeRequested
  | resized (width : Nat) (height : Nat)
  deriving DecidableEq, Repr

/-- Platform-specific wayland events
(`iced_native::event::wayland::Event`). -/
inductive WaylandNativeEvent where
  | layerUnfocused (id : Nat)
  | layerFocused (id : Nat)
  | popupUnfocused (id : Nat)
  | popupFocused (id : Nat)
  | popupDone (id : Nat)
  deriving DecidableEq, Repr

/-- The toolkit-facing semantic event (`iced_native::Event`). -/
inductive NativeEvent where
  | mouse (m : MouseNativeEvent)
  | keyboard (k : KeyboardNativeEvent)
  | window (id : Nat) (w : WindowNativeEvent)
  | platformWayland (w : WaylandNativeEvent)
  deriving DecidableEq, Repr

/-- Modelled from the spec: `src/conversion.rs` (`modifiers_to_native`) is
not among the sources; §4.5 and the scenario of §8 fix that the sctk
modifier state projects onto the toolkit's flag set, shift included. The
caps-lock and num-lock states have no toolkit counterpart. -/
def modifiers_to_native (m : Modifiers) : NativeModifiers :=
  { shift := m.shift, ctrl := m.ctrl, alt := m.alt, logo := m.logo }

/-- Modelled from the spec: `src/conversion.rs` (`keysym_to_vkey`) is not
among the sources and §1 treats the keysym table as an opaque lookup; it is
modelled as the identity embedding, which maps every keysym used by the
scenarios.  The claims only rely on the lookup through its result. -/
def keysym_to_vkey (keysym : Nat) : Option Nat :=
  some keysym

/-- Modelled from the spec: `src/conversion.rs`
(`pointer_button_to_native`) is not among the sources; the standard evdev
button codes are mapped, others are dropped. -/
def pointer_button_to_native (button : Nat) : Option MouseButton :=
  if button == 0x110 then some .left
  else if button == 0x111 then some .right
  else if button == 0x112 then some .middle
  else none

/-- Modelled from the spec: `src/conversion.rs` (`pointer_axis_to_native`)
is not among the sources; §4.5 fixes that wheel/tilt sources project to a
discrete lines delta and all other sources to a continuous pixels delta,
and that an unclassified source yields nothing. -/
def pointer_axis_to_native (source : Option AxisSource) (horizontal vertical : Int) :
    Option ScrollDelta :=
  source.map (fun s =>
    match s with
    | .wheel | .wheelTilt => ScrollDelta.lines horizontal vertical
    | .finger | .continuous => ScrollDelta.pixels horizontal vertical)

/-- `SctkEvent::to_native(self, modifiers: &mut Modifiers, surface_ids)`:
projects one raw event to at most one semantic event; the returned
`Modifiers` value is the final state of the `&mut` argument, which is
overwritten exactly by the `Modifiers` variant. -/
def SctkEvent.to_native (e : SctkEvent) (modifiers : Modifiers)
    (surface_ids : List (ObjectId × SurfaceIdWrapper)) : Option NativeEvent × Modifiers :=
  match e with
  | .seatEvent .. => (none, modifiers)
  | .pointerEvent variant _ _ =>
    (match variant.kind with
     | .enter _ => some (.mouse .cursorEntered)
     | .leave _ => some (.mouse .cursorLeft)
     | .motion _ => some (.mouse (.cursorMoved variant.position))
     | .press _ button _ =>
       (pointer_button_to_native button).map (fun b => .mouse (.buttonPressed b))
     | .release _ button _ =>
       (pointer_button_to_native button).map (fun b => .mouse (.buttonReleased b))
     | .axis _ horizontal vertical source =>
       (pointer_axis_to_native source horizontal vertical).map
         (fun a => .mouse (.wheelScrolled a)), modifiers)
  | .keyboardEvent variant _ _ =>
    (match variant with
     | .leave id =>
       ((surface_ids.lookup id).map (fun w =>
         match w with
         | .layerSurface _ => NativeEvent.platformWayland (.layerUnfocused w.inner)
         | .window id => NativeEvent.window id .unfocused
         | .popup _ => NativeEvent.platformWayland (.popupUnfocused w.inner)), modifiers)
     | .enter id =>
       ((surface_ids.lookup id).map (fun w =>
         match w with
         | .layerSurface _ => NativeEvent.platformWayland (.layerFocused w.inner)
         | .window id => NativeEvent.window id .focused
         | .popup _ => NativeEvent.platformWayland (.popupFocused w.inner)), modifiers)
     | .press p =>
       ((keysym_to_vkey p.keysym).map (fun k =>
         NativeEvent.keyboard (.keyPressed k (modifiers_to_native modifiers))), modifiers)
     | .release k =>
       ((keysym_to_vkey k.keysym).map (fun k =>
         NativeEvent.keyboard (.keyReleased k (modifiers_to_native modifiers))), modifiers)
     | .modifiers new_mods =>
       -- `*modifiers = new_mods;` before projecting
       (some (NativeEvent.keyboard (.modifiersChanged (modifiers_to_native new_mods))),
        new_mods))
  | .windowEvent variant id =>
    (match variant with
     | .close =>
       (surface_ids.lookup id).map (fun w => NativeEvent.window w.inner .closeRequested)
     | .configure configure =>
       if configure.is_resizing then
         -- `configure.new_size.unwrap()`: the Rust panics when resizing
         -- without a size; no claim exercises that corner, projected to
         -- no event here
         match configure.new_size with
         | some new_size =>
           (surface_ids.lookup id).map (fun w =>
             NativeEvent.window w.inner (.resized new_size.1 new_size.2))
         | none => none
       else none, modifiers)
  | .layerSurfaceEvent _ _ => (none, modifiers)
  | .popupEvent variant _ _ id =>
    (match variant with
     | .done =>
       (surface_ids.lookup id).map (fun w => NativeEvent.platformWayland (.popupDone w.inner))
     | .configure _ _ => none, modifiers)
  | .draw _ => (none, modifiers)
  | .scaleFactorChanged _ _ _ => (none, modifiers)

/-!
Section: Run loop (`SctkEventLoop::run_return`, `src/event_loop/mod.rs` 209-543)

The loop is embedded as an explicit transition system: the environment's
behavior at each iteration (how protocol dispatch mutates the handler
state, whether it errors, the `WaitUntil` time comparison) is an oracle
`IterEnv`, and the user callback is a function of its own state, the event
and the control-flow value it is handed — in the source it also receives
`&SctkState` read-only, which is dropped here since it cannot mutate it.
Every callback invocation is recorded in a trace together with the
control-flow value passed in.
-/

/-- The four control-flow states.  Modelled from the spec:
`src/event_loop/control_flow.rs` is declared (`pub mod control_flow;`) but
absent from the sources; §4.3 and the uses inside `run_return` fix the
four constructors (`Poll`, `Wait`, `WaitUntil(deadline)`,
`ExitWithCode(code)`).  `Instant` deadlines are opaque numbers. -/
inductive ControlFlow where
  | poll
  | wait
  | waitUntil (deadline : Nat)
  | exitWithCode (code : Int)
  deriving DecidableEq, Repr

/-- Start causes of a `NewEvents` callback (`StartCause` in
`src/sctk_event.rs`); the `Instant` payloads carry wall-clock times and
are omitted. -/
inductive StartCause where
  | resumeTimeReached
  | waitCancelled
  | poll
  | init
  deriving DecidableEq, Repr

/-- The toolkit-facing event stream (`IcedSctkEvent<T>` in
`src/sctk_event.rs`); user events carry the (window id, payload) pair of
the user-event channel. -/
inductive IcedSctkEvent (T : Type) where
  | newEvents (c : StartCause)
  | userEvent (e : Nat × T)
  | sctkEvent (e : SctkEvent)
  | mainEventsCleared
  | redrawRequested (id : ObjectId)
  | redrawEventsCleared
  | loopDestroyed
  deriving DecidableEq, Repr

/-- One recorded callback invocation: the delivered event and the
control-flow value the callback received on entry. -/
structure TraceEntry (T : Type) where
  ev : IcedSctkEvent T
  passed : ControlFlow
  deriving DecidableEq, Repr

/-- The user callback `F: FnMut(IcedSctkEvent<T>, &SctkState<T>, &mut
ControlFlow)`: `U` is its captured mutable state, the result is its new
state and the value it leaves in the `&mut ControlFlow`. -/
abbrev Callback (T U : Type) := U → IcedSctkEvent T → ControlFlow → U × ControlFlow

/-- Delivery state threaded through the callback invocations of one
iteration: callback state, the loop's stored control flow and the trace
accumulated so far. -/
structure Deliver (T U : Type) where
  ust : U
  cf : ControlFlow
  trace : List (TraceEntry T)

/-- `sticky_exit_callback` (`src/event_loop/mod.rs`, lines 546-561): when
the stored control flow is already `ExitWithCode`, the callback receives a
synthetic `ExitWithCode(code)` temporary and its mutation of it is
discarded; otherwise it operates on the real control flow. -/
def sticky_exit_callback (cb : Callback T U) (evt : IcedSctkEvent T) (d : Deliver T U) :
    Deliver T U :=
  match d.cf with
  | .exitWithCode code =>
    -- the callback's mutation of the synthetic temporary is discarded
    { d with
      ust := (cb d.ust evt (.exitWithCode code)).1,
      trace := d.trace ++ [⟨evt, .exitWithCode code⟩] }
  | _ =>
    { ust := (cb d.ust evt d.cf).1, cf := (cb d.ust evt d.cf).2,
      trace := d.trace ++ [⟨evt, d.cf⟩] }

/-- A plain (non-sticky) callback invocation, as used for the `NewEvents`
and `LoopDestroyed` deliveries. -/
def raw_callback (cb : Callback T U) (evt : IcedSctkEvent T) (d : Deliver T U) :
    Deliver T U :=
  { ust := (cb d.ust evt d.cf).1, cf := (cb d.ust evt d.cf).2,
    trace := d.trace ++ [⟨evt, d.cf⟩] }

/-- Deliver a list of events in order through `sticky_exit_callback`. -/
def deliver_all (cb : Callback T U) (evts : List (IcedSctkEvent T)) (d : Deliver T U) :
    Deliver T U :=
  match evts with
  | [] => d
  | e :: rest => deliver_all cb rest (sticky_exit_callback cb e d)

/-- Errors of `queue.dispatch_pending`
(`wayland client DispatchError`): a bad message, or a backend error that is
either an I/O error (with an optional raw OS code) or a protocol error. -/
inductive DispatchError where
  | badMessage
  | backendIo (raw_os_error : Option Int)
  | backendProtocol
  deriving DecidableEq, Repr

/-- Errors of `self.event_loop.dispatch` (`calloop::Error`); every variant
other than `IoError` carries no OS code. -/
inductive CalloopError where
  | ioError (raw_os_error : Option Int)
  | other
  deriving DecidableEq, Repr

/-- `raw_os_err` (`src/event_loop/mod.rs`, lines 563-569). -/
def raw_os_err (err : CalloopError) : Int :=
  (match err with
   | .ioError e => e
   | .other => none).getD 1

/-- The error-to-exit-code match inlined at the `dispatch_pending` call
site (`src/event_loop/mod.rs`, lines 256-265). -/
def dispatch_pending_exit_code (error : DispatchError) : Int :=
  (match error with
   | .badMessage => none
   | .backendIo err => err
   | .backendProtocol => none).getD 1

/-- Association-list update mirroring `HashMap::get_mut` followed by a
write: the value at an existing key is replaced in place. -/
def alSet (l : List (ObjectId × α)) (k : ObjectId) (v : α) : List (ObjectId × α) :=
  l.map (fun p => if p.1 == k then (k, v) else p)

/-- One `(window_id, window_compositor_update)` step of the compositor
update pass (`run_return`, lines 363-472): the optional scale-factor
branch, the optional configure branch and the close notification.
`none` models one of the `unwrap` panics of the source. -/
def process_window_compositor_update (windows : List (ObjectId × SctkWindow))
    (window_user_requests : List (ObjectId × SurfaceUserRequest))
    (window_id : ObjectId) (u : SurfaceCompositorUpdate) :
    Option (List (ObjectId × SctkWindow) × List (ObjectId × SurfaceUserRequest)
      × List SctkEvent) := do
  -- `if let Some(scale_factor) = window_compositor_update.scale_factor`
  let (windows, evs₁) ←
    match u.scale_factor with
    | none => some (windows, ([] : List SctkEvent))
    | some scale_factor => do
      let window_handle ← windows.lookup window_id      -- `.get_mut(..).unwrap()`
      let size ← window_handle.current_size             -- `.as_mut().unwrap()`
      let configure := u.configure
      let window_size := (configure.bind (·.new_size)).getD size
      let windows := alSet windows window_id
        { window_handle with current_size := some window_size }
      let physical_size := (window_size.1 * scale_factor, window_size.2 * scale_factor)
      let _ ← configure                                 -- `configure.unwrap()`
      some (windows,
        [SctkEvent.scaleFactorChanged scale_factor window_id physical_size])
      -- `window_compositor_update.configure = Some(configure.clone())` keeps
      -- the configure in place for the next branch
  -- `if let Some(configure) = window_compositor_update.configure.take()`
  let (windows, window_user_requests, evs₂) ←
    match u.configure with
    | none => some (windows, window_user_requests, ([] : List SctkEvent))
    | some configure => do
      let window_handle ← windows.lookup window_id      -- `.get_mut(..).unwrap()`
      let window_size ← window_handle.current_size      -- `.as_mut().unwrap()`
      let size := configure.new_size.getD window_size
      -- "Always issue resize event on scale factor change."
      let (windows, physical_size) ←
        if u.scale_factor.isNone && window_size == size then
          -- "The size hasn't changed, don't inform downstream about that."
          some (windows, (none : Option Size))
        else do
          let windows := alSet windows window_id
            { window_handle with current_size := some size }
          let sf ← u.scale_factor     -- `window_compositor_update.scale_factor.unwrap()`
          some (windows, some (size.1 * sf, size.2 * sf))
      -- `set_window_geometry` and `commit` are protocol requests performed
      -- even for an unchanged size; they do not touch the model state
      let req ← window_user_requests.lookup window_id   -- `.get_mut(..).unwrap()`
      let window_user_requests := alSet window_user_requests window_id
        { req with refresh_frame := false }
      some (windows, window_user_requests,
        if physical_size.isSome then
          [SctkEvent.windowEvent (.configure configure) window_id]
        else [])
  -- `if window_compositor_update.close_window`
  let evs₃ :=
    if u.close_window then [SctkEvent.windowEvent .close window_id] else []
  some (windows, window_user_requests, evs₁ ++ evs₂ ++ evs₃)

/-- The per-iteration oracle for everything outside the embedded state:
how `dispatch_pending` mutates the handler state through the protocol
handlers (or errors), its dispatched count, how `event_loop.dispatch`
mutates it (or errors), and the `now < deadline` comparison of the
`WaitUntil` branch. -/
structure IterEnv (T : Type) where
  dispatch_pending : Except DispatchError ((SctkStateM T → SctkStateM T) × Nat)
  loop_dispatch : Except CalloopError (SctkStateM T → SctkStateM T)
  now_lt_deadline : Bool := true

/-- The control-flow match of `run_return` (lines 269-340): break on
`ExitWithCode`, otherwise dispatch the event loop (possibly breaking with
`raw_os_err`) and emit the matching `NewEvents` start cause through the
plain callback. -/
def control_flow_phase (env : IterEnv T) (cb : Callback T U) (st : SctkStateM T)
    (d : Deliver T U) : Except Int (SctkStateM T × Deliver T U) :=
  match d.cf with
  | .exitWithCode code => .error code
  | .poll =>
    match env.loop_dispatch with
    | .error error => .error (raw_os_err error)
    | .ok upd => .ok (upd st, raw_callback cb (.newEvents .poll) d)
  | .wait =>
    match env.loop_dispatch with
    | .error error => .error (raw_os_err error)
    | .ok upd => .ok (upd st, raw_callback cb (.newEvents .waitCancelled) d)
  | .waitUntil _ =>
    match env.loop_dispatch with
    | .error error => .error (raw_os_err error)
    | .ok upd =>
      if env.now_lt_deadline then
        .ok (upd st, raw_callback cb (.newEvents .waitCancelled) d)
      else
        .ok (upd st, raw_callback cb (.newEvents .resumeTimeReached) d)

/-- Drain of the pending user events (lines 344-352). -/
def user_events_phase (cb : Callback T U) (st : SctkStateM T) (d : Deliver T U) :
    SctkStateM T × Deliver T U :=
  let user_events := st.pending_user_events
  let st := { st with pending_user_events := [] }
  (st, deliver_all cb (user_events.map IcedSctkEvent.userEvent) d)

/-- The `for (window_id, window_compositor_update) in ..` loop
(lines 363-472), delivering each update's events as they are produced. -/
def process_updates (cb : Callback T U)
    (updates : List (ObjectId × SurfaceCompositorUpdate)) (st : SctkStateM T)
    (d : Deliver T U) : Option (SctkStateM T × Deliver T U) :=
  match updates with
  | [] => some (st, d)
  | (window_id, u) :: rest =>
    match process_window_compositor_update st.windows st.window_user_requests
        window_id u with
    | none => none
    | some (windows, reqs, evs) =>
      process_updates cb rest
        { st with windows := windows, window_user_requests := reqs }
        (deliver_all cb (evs.map IcedSctkEvent.sctkEvent) d)

/-- Coalesced compositor-update pass (lines 354-472): the pending update
map is taken (`mem::take` per entry leaves default values behind) and each
taken update is processed in turn. -/
def window_updates_phase (cb : Callback T U) (st : SctkStateM T) (d : Deliver T U) :
    Option (SctkStateM T × Deliver T U) :=
  let updates := st.window_compositor_updates
  let st := { st with
    window_compositor_updates := updates.map (fun p => (p.1, default)) }
  process_updates cb updates st d

/-- Sink swap and drain (lines 474-492): the sink is swapped with the
(empty) back buffer, then the back buffer is drained.  The drain loop body
is `todo!()` in the source; delivery of each drained event is Modelled
from the spec (§4.1/§4.3 step 8) and the adjacent commented-out
`sticky_exit_callback` call. -/
def sink_phase (cb : Callback T U) (st : SctkStateM T) (back_buffer : List SctkEvent)
    (d : Deliver T U) : SctkStateM T × List SctkEvent × Deliver T U :=
  -- `std::mem::swap(&mut event_sink_back_buffer, &mut self.state.sctk_events)`
  let delivered := st.sctk_events
  let st := { st with sctk_events := back_buffer }
  -- `for event in event_sink_back_buffer.drain(..)`: the buffer is empty
  -- once drained
  (st, [], deliver_all cb (delivered.map IcedSctkEvent.sctkEvent) d)

/-- The `for (window_id, mut window_request) in window_user_requests`
redraw loop (lines 509-530): a frame refresh forces a redraw (after an
`unwrap` lookup of the window), and each request needing a redraw emits
one `RedrawRequested`. -/
def process_user_requests (cb : Callback T U)
    (reqs : List (ObjectId × SurfaceUserRequest))
    (windows : List (ObjectId × SctkWindow)) (d : Deliver T U) :
    Option (Deliver T U) :=
  match reqs with
  | [] => some d
  | (window_id, window_request) :: rest =>
    let redraw? : Option Bool :=
      if window_request.refresh_frame then
        -- `self.state.windows.get_mut(window_id).unwrap()`, then
        -- `window_request.redraw_requested = true`
        (windows.lookup window_id).map (fun _ => true)
      else some window_request.redraw_requested
    match redraw? with
    | none => none
    | some redraw =>
      let d := if redraw then
        sticky_exit_callback cb (.redrawRequested window_id) d
      else d
      process_user_requests cb rest windows d

/-- User-request pass (lines 500-530): the request map is taken
(`mem::take` per entry) and each taken request possibly emits a
`RedrawRequested`. -/
def redraw_phase (cb : Callback T U) (st : SctkStateM T) (d : Deliver T U) :
    Option (SctkStateM T × Deliver T U) :=
  let reqs := st.window_user_requests
  let st := { st with window_user_requests := reqs.map (fun p => (p.1, default)) }
  (process_user_requests cb reqs st.windows d).map (fun d => (st, d))

/-- Phases 5-11 of one iteration (everything after the control-flow
dispatch): user events, compositor updates, sink swap and drain,
`MainEventsCleared`, redraw requests, `RedrawEventsCleared`. -/
def delivery_phases (cb : Callback T U) (st : SctkStateM T)
    (back_buffer : List SctkEvent) (d : Deliver T U) :
    Option (SctkStateM T × List SctkEvent × Deliver T U) := do
  let (st, d) := user_events_phase cb st d
  let (st, d) ← window_updates_phase cb st d
  let (st, back_buffer, d) := sink_phase cb st back_buffer d
  let d := sticky_exit_callback cb .mainEventsCleared d
  let (st, d) ← redraw_phase cb st d
  let d := sticky_exit_callback cb .redrawEventsCleared d
  some (st, back_buffer, d)

/-- Outcome of one `loop` body execution: a `break` with an exit code, or
the state carried to the next iteration together with the trace of the
callback invocations made.  (Every `break` of the source occurs before the
first callback of the iteration, so exits carry no trace.) -/
inductive IterResult (T U : Type) where
  | exit (code : Int)
  | cont (st : SctkStateM T) (back_buffer : List SctkEvent) (ust : U)
      (cf : ControlFlow) (trace : List (TraceEntry T))

/-- One execution of the `loop` body of `run_return` (lines 239-539):
flush (a no-op on the model state), `dispatch_pending` with its inline
error-exit, the control-flow match, then the delivery phases.  `none`
models a panic (`unwrap`/`todo!`). -/
def iterate (env : IterEnv T) (cb : Callback T U) (ust : U) (st : SctkStateM T)
    (cf : ControlFlow) (back_buffer : List SctkEvent) : Option (IterResult T U) :=
  -- `let _ = self.state.connection.flush();`
  match env.dispatch_pending with
  | .error error => some (.exit (dispatch_pending_exit_code error))
  | .ok (upd, _dispatched) =>
    let st := upd st
    match control_flow_phase env cb st ⟨ust, cf, []⟩ with
    | .error code => some (.exit code)
    | .ok (st, d) =>
      match delivery_phases cb st back_buffer d with
      | none => none
      | some (st, back_buffer, d) =>
        some (.cont st back_buffer d.ust d.cf d.trace)

/-- The `loop` of `run_return` with fuel: iterates until a `break`, then
delivers the final `LoopDestroyed` through the plain callback and returns
the exit code.  `none` models a panic or fuel exhaustion. -/
def run_loop (env : Nat → IterEnv T) (cb : Callback T U) (fuel k : Nat) (ust : U)
    (st : SctkStateM T) (cf : ControlFlow) (back_buffer : List SctkEvent)
    (acc : List (TraceEntry T)) : Option (Int × List (TraceEntry T)) :=
  match fuel with
  | 0 => none
  | fuel + 1 =>
    match iterate (env k) cb ust st cf back_buffer with
    | none => none
    | some (.exit code) =>
      -- `callback(IcedSctkEvent::LoopDestroyed, &self.state, &mut control_flow)`
      some (code, acc ++ [⟨.loopDestroyed, cf⟩])
    | some (.cont st bb ust cf tr) =>
      run_loop env cb fuel (k + 1) ust st cf bb (acc ++ tr)

/-- `run_return` (lines 209-543): control flow starts at `Poll`, the
`NewEvents(Init)` callback fires once before the loop, the back buffer
starts empty, and the loop runs until it breaks. -/
def run_return (fuel : Nat) (env : Nat → IterEnv T) (cb : Callback T U) (ust : U)
    (st : SctkStateM T) : Option (Int × List (TraceEntry T)) :=
  let d := raw_callback cb (.newEvents .init) ⟨ust, .poll, []⟩
  run_loop env cb fuel 0 d.ust st d.cf [] d.trace

/-!
Section: Spec-side predicates for the run-loop claims
-/

/-- Between two delivery states, the stored control flow is still the
exit state and every recorded callback invocation saw the synthetic
`ExitWithCode code` on entry. -/
def ExitSticky (code : Int) (d d' : Deliver T U) : Prop :=
  d'.cf = .exitWithCode code
  ∧ ∃ tail, d'.trace = d.trace ++ tail
      ∧ ∀ en ∈ tail, en.passed = ControlFlow.exitWithCode code

/-- Shape of one per-window compositor-update block the way the spec
orders it: an optional scale-factor notification, then an optional
configure notification, then an optional close notification, all
addressed to that window. -/
def windowBlockEvents (wid : ObjectId) (evs : List SctkEvent) : Prop :=
  ∃ e₁ e₂ e₃, evs = e₁ ++ e₂ ++ e₃
    ∧ (e₁ = [] ∨ ∃ f ps, e₁ = [SctkEvent.scaleFactorChanged f wid ps])
    ∧ (e₂ = [] ∨ ∃ c, e₂ = [SctkEvent.windowEvent (.configure c) wid])
    ∧ (e₃ = [] ∨ e₃ = [SctkEvent.windowEvent .close wid])

/-- The claim's fixed callback order for one completed loop iteration:
one `NewEvents` (never `Init`), then the pending user events, then the
per-window compositor-update blocks (scale before configure before
close), then the drained sink events, then `MainEventsCleared`, then the
`RedrawRequested` emissions, then `RedrawEventsCleared`. -/
def phase_ordered (tr : List (IcedSctkEvent T)) : Prop :=
  ∃ (sc : StartCause) (ues : List (Nat × T)) (wids : List ObjectId)
    (blocks : List (List SctkEvent)) (ses : List SctkEvent) (rids : List ObjectId),
    sc ≠ .init
    ∧ List.Forall₂ windowBlockEvents wids blocks
    ∧ tr = IcedSctkEvent.newEvents sc
        :: (ues.map IcedSctkEvent.userEvent
          ++ (blocks.flatten).map IcedSctkEvent.sctkEvent
          ++ ses.map IcedSctkEvent.sctkEvent
          ++ [IcedSctkEvent.mainEventsCleared]
          ++ rids.map IcedSctkEvent.redrawRequested
          ++ [IcedSctkEvent.redrawEventsCleared])

/-!
Section: Concrete instances used by the witnesses
-/

/-- A seat owning keyboard 10 and pointer 20, with both focuses on
surface 7. -/
def witness_seat : SctkSeat :=
  { seat := 3, kbd := some 10, ptr := some 20, kbd_focus := some 7, ptr_focus := some 7 }

/-- A handler state tracking exactly `witness_seat`. -/
def witness_state : SctkStateM Unit :=
  { seats := [witness_seat] }

/-- A second seat, added after `witness_seat`, owning keyboard 11. -/
def witness_seat_later : SctkSeat :=
  { seat := 4, kbd := some 11 }

/-- A handler state tracking `witness_seat` (active, first in the list)
and the later seat `witness_seat_later`. -/
def witness_two_seat_state : SctkStateM Unit :=
  { seats := [witness_seat, witness_seat_later] }

/-- A layer surface with committed size 800×40 and a popup (surface 9,
parented to window 0) for the configure-path witnesses. -/
def witness_layer : SctkLayerSurface :=
  { surface := 5
    current_size := some (800, 40)
    last_configure := some { new_size := (800, 40) } }

/-- A handler state carrying `witness_layer` and a popup (surface 9,
parented to window 0) for the configure-path witnesses. -/
def witness_surfaces_state : SctkStateM Unit :=
  { layer_surfaces := [witness_layer]
    popups := [{ popup := 9, parent := .window 0, toplevel := 0 }] }

/-- A callback that always tries to leave the loop in `Poll`; against an
exited loop this attempts to "unexit". -/
def witness_cb : Callback Unit Unit := fun u _ _ => (u, ControlFlow.poll)

/-- A callback that requests exit code 0 once `RedrawEventsCleared` is
seen and otherwise leaves the control flow alone. -/
def witness_exit_cb : Callback Unit Unit := fun u e c =>
  match e with
  | .redrawEventsCleared => (u, .exitWithCode 0)
  | _ => (u, c)

/-- An environment whose dispatches succeed without touching the state. -/
def witness_env : Nat → IterEnv Unit := fun _ => ⟨.ok (id, 0), .ok id, true⟩

/-- An environment whose buffered dispatch fails with OS error 7. -/
def witness_env_io_error : Nat → IterEnv Unit :=
  fun _ => ⟨.error (.backendIo (some 7)), .ok id, true⟩

/-- An environment whose event-loop dispatch fails without an OS code. -/
def witness_env_calloop_error : Nat → IterEnv Unit :=
  fun _ => ⟨.ok (id, 0), .error (.ioError none), true⟩

/-- A delivery state whose control flow has already exited with code 5. -/
def witness_exit_d : Deliver Unit Unit := ⟨(), .exitWithCode 5, []⟩

/-- A handler state holding one pending sink event and one pending redraw
request for surface 7. -/
def witness_run_state : SctkStateM Unit :=
  { sctk_events := [.draw 7], window_user_requests := [(7, { redraw_requested := true })] }

/-!
Section: Theorems
-/

/-- C1: the claim states that closing popup `P1` (child of window `W`, with
child popup `P2`) through the protocol's `done` callback removes both `P1`
and `P2` from the registry and emits `Done` for `P2` before `Done` for
`P1`.  The code walks the *parent* chain instead of the descendants: on
`done(P1)` it removes only `P1` and emits only `Done(P1)`, leaving the
orphaned `P2` in the registry; and on `done(P2)` it destroys the parent
`P1` first and then panics on the `unwrap` that re-looks the already
removed parent up.  Here `P1` has surface id 1, `P2` id 2, `W` id 0. -/
theorem C1_popup_done_walks_ancestors_not_descendants :
    popup_done [{ popup := 1, parent := .window 0, toplevel := 0 },
        { popup := 2, parent := .popup 1, toplevel := 0 }] [] 1
      = some ([{ popup := 2, parent := .popup 1, toplevel := 0 }],
          [SctkEvent.popupEvent .done 0 0 1])
    ∧ popup_done [{ popup := 1, parent := .window 0, toplevel := 0 },
        { popup := 2, parent := .popup 1, toplevel := 0 }] [] 2
      = none :=
  ⟨by decide, by decide⟩

/-- C3: the claim states that a window compositor update whose configure
carries a size different from the committed size is processed without
hitting a panic branch and emits a `Configure` notification, also when no
scale-factor change accompanies it.  In the code the size-changed branch
evaluates `window_compositor_update.scale_factor.unwrap()`, which panics
exactly when no scale-factor change accompanies the update (first
conjunct, window 7 going from 100×100 to 200×200); with a scale change in
the same cycle the same update succeeds and emits the notification (second
conjunct). -/
theorem C3_resize_without_scale_change_panics :
    process_window_compositor_update [(7, { current_size := some (100, 100) })]
        [(7, {})] 7 { configure := some { new_size := some (200, 200) } }
      = none
    ∧ process_window_compositor_update [(7, { current_size := some (100, 100) })]
        [(7, {})] 7
        { configure := some { new_size := some (200, 200) }, scale_factor := some 1 }
      = some ([(7, { current_size := some (200, 200) })],
          [(7, {})],
          [SctkEvent.scaleFactorChanged 1 7 (200, 200),
           SctkEvent.windowEvent (.configure { new_size := some (200, 200) }) 7]) :=
  ⟨by decide, by decide⟩

/-- C9: the projector overwrites the shared modifier state when it
processes a modifiers-changed event (first conjunct), and a key press
whose keysym is mapped by the lookup yields a `KeyPressed` carrying the
projection of the *current* modifier state (second conjunct); in the
spec's scenario (third conjunct), pressing keysym 65 with no prior
modifiers yields an empty modifier set, and after a shift-held modifiers
change the next press carries `SHIFT`. -/
theorem C9_projector_modifier_state (mods new_mods : Modifiers) (p : KeyEvent)
    (kid sid : ObjectId) (tbl : List (ObjectId × SurfaceIdWrapper)) (vk : Nat)
    (hvk : keysym_to_vkey p.keysym = some vk) :
    (SctkEvent.keyboardEvent (.modifiers new_mods) kid sid).to_native mods tbl
      = (some (.keyboard (.modifiersChanged (modifiers_to_native new_mods))), new_mods)
    ∧ (SctkEvent.keyboardEvent (.press p) kid sid).to_native mods tbl
      = (some (.keyboard (.keyPressed vk (modifiers_to_native mods))), mods)
    ∧ ((SctkEvent.keyboardEvent (.press { keysym := 65 }) 1 2).to_native {} []
        = (some (.keyboard (.keyPressed 65 {})), {})
      ∧ ((SctkEvent.keyboardEvent (.press { keysym := 65 }) 1 2).to_native
          ((SctkEvent.keyboardEvent (.modifiers { shift := true }) 1 2).to_native {} []).2 []
        = (some (.keyboard (.keyPressed 65 { shift := true })), { shift := true }))) := by
  refine ⟨rfl, ?_, by decide, by decide⟩
  simp [SctkEvent.to_native, hvk]

/-- Witness for C9 at a concrete press of keysym 65. -/
theorem C9_projector_modifier_state_witness :
    keysym_to_vkey (KeyEvent.keysym { keysym := 65 }) = some 65
    ∧ ((SctkEvent.keyboardEvent (.press { keysym := 65 }) 1 2).to_native
        { shift := true } []
      = (some (.keyboard (.keyPressed 65 (modifiers_to_native { shift := true }))),
         { shift := true })) :=
  ⟨by decide,
   (C9_projector_modifier_state { shift := true } {} { keysym := 65 } 1 2 [] 65
     (by decide)).2.1⟩

/-- C10: after a keyboard `leave` for surface `S` on a tracked seat, the
seat record's keyboard focus equals `Some(S)` — the handler *replaces* the
focus with the departed surface rather than clearing it (first conjunct) —
whereas a pointer frame containing a `Leave` event sets the same seat's
pointer focus to `None` (second conjunct). -/
theorem C10_keyboard_leave_keeps_focus_pointer_leave_clears (T : Type)
    (st : SctkStateM T) (k S p : ObjectId) (pos : Int × Int) (n : Nat)
    (i j : Nat) (s s' : SctkSeat)
    (hk : findKbdSeat st.seats k = some (i, s))
    (hp : st.seats.findIdx? (fun se => se.ptr == some p) = some j)
    (hj : st.seats[j]? = some s') :
    (keyboard_leave st k S).seats[i]? = some { s with kbd_focus := some S }
    ∧ (pointer_frame st p [{ surface := S, position := pos, kind := .leave n }]).seats[j]?
      = some { s' with ptr_focus := none } := by
  have hi : st.seats[i]? = some s := by
    have hm := List.mem_of_find?_eq_some hk
    rwa [List.mk_mem_enum_iff_getElem?] at hm
  have hilen : i < st.seats.length := (List.getElem?_eq_some.mp hi).1
  have hjlen : j < st.seats.length := (List.getElem?_eq_some.mp hj).1
  constructor
  · unfold keyboard_leave
    rw [hk]
    by_cases h0 : i == 0 <;>
      simp [h0, List.getElem?_set_eq_of_lt _ hilen]
  · unfold pointer_frame
    rw [hp]
    simp only [hj]
    simp [pointer_frame_loop, List.getElem?_set_eq_of_lt _ hjlen]

/-- Witness for C10: the seat `witness_seat` (below the definitions) owns
keyboard 10 and pointer 20 and focuses surface 7 for both; the keyboard
leaves surface 5 (focus becomes `some 5`), the pointer leaves surface 5
(focus becomes `none`). -/
theorem C10_keyboard_leave_keeps_focus_pointer_leave_clears_witness :
    (findKbdSeat (SctkStateM.seats witness_state) 10 = some (0, witness_seat))
    ∧ (witness_state.seats.findIdx? (fun se => se.ptr == some 20) = some 0)
    ∧ (witness_state.seats[0]? = some witness_seat)
    ∧ ((keyboard_leave witness_state 10 5).seats[0]?
      = some { witness_seat with kbd_focus := some 5 })
    ∧ ((pointer_frame witness_state 20
        [{ surface := 5, position := (0, 0), kind := .leave 9 }]).seats[0]?
      = some { witness_seat with ptr_focus := none }) := by
  refine ⟨by decide, by decide, by decide, ?_, ?_⟩
  · exact (C10_keyboard_leave_keeps_focus_pointer_leave_clears Unit witness_state 10 5 20
      (0, 0) 9 0 0 witness_seat witness_seat (by decide) (by decide) (by decide)).1
  · exact (C10_keyboard_leave_keeps_focus_pointer_leave_clears Unit witness_state 10 5 20
      (0, 0) 9 0 0 witness_seat witness_seat (by decide) (by decide) (by decide)).2

/-- C2 counterexample: the claim quantifies over every surface kind, but
the layer-surface configure handler pushes its events unconditionally —
here layer surface 5, whose committed size is already 800×40, receives a
configure with the identical 800×40 size and no scale-factor change, and
the handler still appends a `Configure` notification and a
redraw-requesting `Draw` event to the pending sink. -/
theorem C2_counterexample_layer_configure_always_draws :
    (layer_surface_configure witness_surfaces_state 5 { new_size := (800, 40) }).sctk_events
      = [SctkEvent.layerSurfaceEvent (.configure { new_size := (800, 40) }) 5,
         SctkEvent.draw 5] := by
  rfl

/-- C2 amended: only the window compositor-update path is silent on a
configure that changes neither the negotiated size nor the scale factor
(first conjunct: no event at all is emitted, the request's refresh flag is
merely cleared); the layer-surface configure callback unconditionally
appends a `Configure` event *and* a redraw-requesting `Draw` event (second
conjunct), and the popup configure callback unconditionally appends a
`Configure` event (third conjunct), whether or not anything changed. -/
theorem C2_amended_unchanged_configure_paths (T : Type)
    (windows : List (ObjectId × SctkWindow)) (reqs : List (ObjectId × SurfaceUserRequest))
    (wid : ObjectId) (w : SctkWindow) (r : SurfaceUserRequest) (sz : Size)
    (cfg : WindowConfigure) (st : SctkStateM T) (lid pid : ObjectId)
    (lcfg : LayerSurfaceConfigure) (pcfg : PopupConfigure) (layer : SctkLayerSurface)
    (i : Nat) (pp : SctkPopup)
    (hw : windows.lookup wid = some w) (hs : w.current_size = some sz)
    (hr : reqs.lookup wid = some r) (hc : cfg.new_size = some sz)
    (hl : st.layer_surfaces.find? (fun s => s.surface == lid) = some layer)
    (hpi : st.popups.findIdx? (fun s => s.popup == pid) = some i)
    (hpp : st.popups[i]? = some pp) :
    process_window_compositor_update windows reqs wid
        { configure := some cfg, scale_factor := none, close_window := false }
      = some (windows, alSet reqs wid { r with refresh_frame := false }, [])
    ∧ (layer_surface_configure st lid lcfg).sctk_events
      = st.sctk_events ++ [SctkEvent.layerSurfaceEvent (.configure lcfg) layer.surface,
          SctkEvent.draw layer.surface]
    ∧ (popup_configure st pid pcfg).sctk_events
      = st.sctk_events ++ [SctkEvent.popupEvent (.configure pcfg pp.last_configure.isNone)
          pp.toplevel pp.parent.wl_surface_id pid] := by
  refine ⟨?_, ?_, ?_⟩
  · simp [process_window_compositor_update, hw, hs, hr, hc]
  · simp [layer_surface_configure, hl]
  · unfold popup_configure
    rw [hpi]
    simp [hpp]

/-- Witness for C2's amended statement: window 7 at committed size 100×100
receiving a same-size configure, the layer surface and the popup of
`witness_surfaces_state`. -/
theorem C2_amended_unchanged_configure_paths_witness :
    ([(7, ({ current_size := some (100, 100) } : SctkWindow))].lookup 7
        = some { current_size := some (100, 100) }
      ∧ ([(7, ({} : SurfaceUserRequest))].lookup 7 = some {})
      ∧ (WindowConfigure.new_size { new_size := some (100, 100) } = some (100, 100)))
    ∧ process_window_compositor_update [(7, { current_size := some (100, 100) })]
        [(7, {})] 7
        { configure := some { new_size := some (100, 100) },
          scale_factor := none, close_window := false }
      = some ([(7, { current_size := some (100, 100) })],
          alSet [(7, {})] 7 { refresh_frame := false }, [])
    ∧ (layer_surface_configure witness_surfaces_state 5 { new_size := (800, 40) }).sctk_events
      = witness_surfaces_state.sctk_events
        ++ [SctkEvent.layerSurfaceEvent (.configure { new_size := (800, 40) }) 5,
            SctkEvent.draw 5]
    ∧ (popup_configure witness_surfaces_state 9 {}).sctk_events
      = witness_surfaces_state.sctk_events
        ++ [SctkEvent.popupEvent (.configure {} true) 0 0 9] := by
  have h := C2_amended_unchanged_configure_paths Unit
    [(7, { current_size := some (100, 100) })] [(7, {})] 7
    { current_size := some (100, 100) } {} (100, 100)
    { new_size := some (100, 100) } witness_surfaces_state 5 9
    { new_size := (800, 40) } {}
    { surface := 5, current_size := some (800, 40),
      last_configure := some { new_size := (800, 40) } } 0
    { popup := 9, parent := .window 0, toplevel := 0 }
    (by decide) (by decide) (by decide) (by decide) (by decide) (by decide) (by decide)
  exact ⟨⟨by decide, by decide, by decide⟩, h.1, h.2.1, h.2.2⟩

/-- C8: for every keyboard callback on a tracked seat — found by the
enumerate-and-find of the handlers, so `i` is the seat's position and the
seat is active exactly when `i = 0` — the pending sink gains the event if
and only if the seat is the first one, while the seat-record bookkeeping
(focus replacement on enter/leave, last-press on press) happens for any
seat; and capability bookkeeping (here: binding a new keyboard on
`new_capability`) updates the found seat's record and pushes its seat
event whatever the seat's position. -/
theorem C8_keyboard_events_routed_to_active_seat (T : Type) (st : SctkStateM T)
    (k S : ObjectId) (e : KeyEvent) (m : Modifiers) (i : Nat) (s : SctkSeat)
    (h : findKbdSeat st.seats k = some (i, s)) :
    ((press_key st k e).sctk_events
        = st.sctk_events
          ++ (if i = 0 then [SctkEvent.keyboardEvent (.press e) k s.seat] else [])
      ∧ (press_key st k e).seats = st.seats.set i { s with last_kbd_press := some e })
    ∧ ((release_key st k e).sctk_events
        = st.sctk_events
          ++ (if i = 0 then [SctkEvent.keyboardEvent (.release e) k s.seat] else [])
      ∧ (release_key st k e).seats = st.seats)
    ∧ ((keyboard_enter st k S).sctk_events
        = st.sctk_events
          ++ (if i = 0 then [SctkEvent.keyboardEvent (.enter S) k s.seat] else [])
      ∧ (keyboard_enter st k S).seats = st.seats.set i { s with kbd_focus := some S })
    ∧ ((keyboard_leave st k S).sctk_events
        = st.sctk_events
          ++ (if i = 0 then [SctkEvent.keyboardEvent (.leave S) k s.seat] else [])
      ∧ (keyboard_leave st k S).seats = st.seats.set i { s with kbd_focus := some S })
    ∧ ((update_modifiers st k m).sctk_events
        = st.sctk_events
          ++ (if i = 0 then [SctkEvent.keyboardEvent (.modifiers m) k s.seat] else [])
      ∧ (update_modifiers st k m).seats = st.seats)
    ∧ (∀ (seat_id obj : ObjectId) (j : Nat) (sj : SctkSeat),
        st.seats.findIdx? (fun se => se.seat == seat_id) = some j →
        st.seats[j]? = some sj →
        (new_capability st seat_id .keyboard obj).sctk_events
          = st.sctk_events ++ [SctkEvent.seatEvent (.newCapabilityKeyboard obj) seat_id]
        ∧ (new_capability st seat_id .keyboard obj).seats
          = st.seats.set j { sj with kbd := some obj }) := by
  refine ⟨?_, ?_, ?_, ?_, ?_, ?_⟩
  · unfold press_key
    rw [h]
    by_cases h0 : i = 0 <;> simp [h0]
  · unfold release_key
    rw [h]
    by_cases h0 : i = 0 <;> simp [h0]
  · unfold keyboard_enter
    rw [h]
    by_cases h0 : i = 0 <;> simp [h0]
  · unfold keyboard_leave
    rw [h]
    by_cases h0 : i = 0 <;> simp [h0]
  · unfold update_modifiers
    rw [h]
    by_cases h0 : i = 0 <;> simp [h0]
  · intro seat_id obj j sj hfind hj
    unfold new_capability
    rw [hfind]
    simp only [hj]
    simp

/-- Witness for C8: on the two-seat state the first seat's keyboard (10)
forwards a press to the sink; the later seat's keyboard (11) performs its
bookkeeping (last press recorded) but forwards nothing; binding a pointer
capability... (keyboard capability) on the later seat still records and
reports it. -/
theorem C8_keyboard_events_routed_to_active_seat_witness :
    (findKbdSeat witness_two_seat_state.seats 10 = some (0, witness_seat)
      ∧ findKbdSeat witness_two_seat_state.seats 11 = some (1, witness_seat_later))
    ∧ ((press_key witness_two_seat_state 10 { keysym := 65 }).sctk_events
      = witness_two_seat_state.sctk_events
        ++ [SctkEvent.keyboardEvent (.press { keysym := 65 }) 10 3])
    ∧ ((press_key witness_two_seat_state 11 { keysym := 65 }).sctk_events
      = witness_two_seat_state.sctk_events ++ [])
    ∧ ((press_key witness_two_seat_state 11 { keysym := 65 }).seats
      = witness_two_seat_state.seats.set 1
          { witness_seat_later with last_kbd_press := some { keysym := 65 } })
    ∧ ((new_capability witness_two_seat_state 4 .keyboard 12).seats
      = witness_two_seat_state.seats.set 1 { witness_seat_later with kbd := some 12 }) := by
  have h0 := C8_keyboard_events_routed_to_active_seat Unit witness_two_seat_state
    10 0 { keysym := 65 } {} 0 witness_seat (by decide)
  have h1 := C8_keyboard_events_routed_to_active_seat Unit witness_two_seat_state
    11 0 { keysym := 65 } {} 1 witness_seat_later (by decide)
  refine ⟨⟨by decide, by decide⟩, ?_, ?_, ?_, ?_⟩
  · have := h0.1.1
    simpa using this
  · have := h1.1.1
    simpa using this
  · exact h1.1.2
  · exact (h1.2.2.2.2.2 4 12 1 witness_seat_later (by decide) (by decide)).2

/-!
Section: Helper lemmas about the delivery machinery
-/

/-- A sticky delivery appends exactly one trace entry, for the delivered
event. -/
theorem sticky_trace_map_ev (cb : Callback T U) (evt : IcedSctkEvent T)
    (d : Deliver T U) :
    ((sticky_exit_callback cb evt d).trace).map TraceEntry.ev
      = d.trace.map TraceEntry.ev ++ [evt] := by
  obtain ⟨ust, cf, tr⟩ := d
  cases cf <;> simp [sticky_exit_callback]

/-- `deliver_all` appends exactly the delivered events to the trace. -/
theorem deliver_all_trace_map_ev (cb : Callback T U) (evts : List (IcedSctkEvent T))
    (d : Deliver T U) :
    ((deliver_all cb evts d).trace).map TraceEntry.ev
      = d.trace.map TraceEntry.ev ++ evts := by
  induction evts generalizing d with
  | nil => simp [deliver_all]
  | cons e rest ih =>
    rw [deliver_all, ih, sticky_trace_map_ev]
    simp

/-- On an exited control flow, one sticky delivery hands the callback the
synthetic exit value and keeps the stored control flow. -/
theorem sticky_exit_sticky (cb : Callback T U) (evt : IcedSctkEvent T)
    (d : Deliver T U) (code : Int) (h : d.cf = .exitWithCode code) :
    ExitSticky code d (sticky_exit_callback cb evt d) := by
  obtain ⟨ust, cf, tr⟩ := d
  cases h
  exact ⟨rfl, [⟨evt, .exitWithCode code⟩], rfl, by simp⟩

/-- `ExitSticky` is reflexive on an exited delivery state. -/
theorem exit_sticky_refl (d : Deliver T U) (code : Int)
    (h : d.cf = .exitWithCode code) : ExitSticky code d d :=
  ⟨h, [], by simp, by simp⟩

/-- `ExitSticky` composes. -/
theorem exit_sticky_trans {d d' d'' : Deliver T U} {code : Int}
    (h : ExitSticky code d d') (h' : ExitSticky code d' d'') :
    ExitSticky code d d'' := by
  obtain ⟨hcf, tail, htr, hall⟩ := h
  obtain ⟨hcf', tail', htr', hall'⟩ := h'
  refine ⟨hcf', tail ++ tail', by rw [htr', htr, List.append_assoc], ?_⟩
  intro en hen
  rcases List.mem_append.mp hen with h | h
  · exact hall en h
  · exact hall' en h

/-- `deliver_all` on an exited control flow is sticky. -/
theorem deliver_all_exit_sticky (cb : Callback T U) (evts : List (IcedSctkEvent T))
    (d : Deliver T U) (code : Int) (h : d.cf = .exitWithCode code) :
    ExitSticky code d (deliver_all cb evts d) := by
  induction evts generalizing d with
  | nil => exact exit_sticky_refl d code h
  | cons e rest ih =>
    rw [deliver_all]
    have h1 := sticky_exit_sticky cb e d code h
    exact exit_sticky_trans h1 (ih _ h1.1)

/-- The events one compositor update emits form a
scale-configure-close block for its window. -/
theorem process_window_compositor_update_events
    (ws : List (ObjectId × SctkWindow)) (rs : List (ObjectId × SurfaceUserRequest))
    (wid : ObjectId) (u : SurfaceCompositorUpdate)
    (ws' : List (ObjectId × SctkWindow)) (rs' : List (ObjectId × SurfaceUserRequest))
    (evs : List SctkEvent)
    (h : process_window_compositor_update ws rs wid u = some (ws', rs', evs)) :
    windowBlockEvents wid evs := by
  obtain ⟨cfg, first, sf, close⟩ := u
  cases sf with
  | none =>
    cases cfg with
    | none =>
      simp only [process_window_compositor_update, Option.bind_eq_bind,
        Option.bind_eq_some, Option.some.injEq, Prod.mk.injEq] at h
      obtain ⟨a, ha, b, hb, _, _, hevs⟩ := h
      subst ha
      subst hb
      subst hevs
      exact ⟨[], [], _, rfl, Or.inl rfl, Or.inl rfl,
        by cases close <;> simp⟩
    | some c =>
      simp only [process_window_compositor_update, Option.bind_eq_bind,
        Option.bind_eq_some, Option.some.injEq, Prod.mk.injEq] at h
      obtain ⟨a, ha, w, hw, sz, hsz, h⟩ := h
      subst ha
      split at h
      · simp only [Option.some_bind, Option.bind_eq_some, Option.some.injEq,
          Prod.mk.injEq] at h
        obtain ⟨req, hreq, _, _, hevs⟩ := h
        subst hevs
        exact ⟨[], [], _, rfl, Or.inl rfl, Or.inl (by simp), by cases close <;> simp⟩
      · simp at h
  | some f =>
    cases cfg with
    | none =>
      simp only [process_window_compositor_update, Option.bind_eq_bind,
        Option.bind_eq_some, Option.some.injEq, Prod.mk.injEq] at h
      obtain ⟨a, _, b, _, c, hcon, _⟩ := h
      exact absurd hcon (by simp)
    | some c =>
      simp only [process_window_compositor_update, Option.bind_eq_bind,
        Option.bind_eq_some, Option.some.injEq, Prod.mk.injEq] at h
      obtain ⟨w, hw, sz, hsz, a2, ha2, a3, ha3, w2, hw2, sz2, hsz2, h⟩ := h
      subst ha3
      simp only [Option.isNone_some, Bool.false_and, Bool.false_eq_true, if_false,
        Option.some_bind, Option.bind_eq_some, Option.some.injEq, Prod.mk.injEq] at h
      obtain ⟨req, hreq, _, _, hevs⟩ := h
      subst hevs
      refine ⟨_, _, _, rfl, Or.inr ⟨f, _, rfl⟩, Or.inr ⟨c, by simp⟩,
        by cases close <;> simp⟩

/-- `process_updates` leaves the sink untouched and is sticky on an exited
control flow; its trace appends per-update blocks of the spec's
scale-configure-close shape. -/
theorem process_updates_spec (cb : Callback T U)
    (updates : List (ObjectId × SurfaceCompositorUpdate)) (st : SctkStateM T)
    (d : Deliver T U) (st' : SctkStateM T) (d' : Deliver T U)
    (h : process_updates cb updates st d = some (st', d')) :
    st'.sctk_events = st.sctk_events
    ∧ st'.pending_user_events = st.pending_user_events
    ∧ st'.window_compositor_updates = st.window_compositor_updates
    ∧ (∀ code, d.cf = .exitWithCode code → ExitSticky code d d')
    ∧ ∃ blocks, List.Forall₂ windowBlockEvents (updates.map Prod.fst) blocks
        ∧ d'.trace.map TraceEntry.ev
          = d.trace.map TraceEntry.ev ++ (blocks.flatten).map IcedSctkEvent.sctkEvent := by
  induction updates generalizing st d with
  | nil =>
    rw [process_updates] at h
    obtain ⟨rfl, rfl⟩ : st = st' ∧ d = d' := by
      have h' := Option.some.inj h
      exact ⟨congrArg Prod.fst h', congrArg Prod.snd h'⟩
    exact ⟨rfl, rfl, rfl, fun code hc => exit_sticky_refl d code hc,
      [], by constructor, by simp⟩
  | cons p rest ih =>
    obtain ⟨wid, u⟩ := p
    rw [process_updates] at h
    cases hpw : process_window_compositor_update st.windows st.window_user_requests
        wid u with
    | none => rw [hpw] at h; exact absurd h (by simp)
    | some res =>
      obtain ⟨ws, rs, evs⟩ := res
      rw [hpw] at h
      simp only at h
      obtain ⟨h1, h2, h3, h4, blocks, hb, htr⟩ := ih _ _ h
      refine ⟨h1, h2, h3, ?_, ?_⟩
      · intro code hc
        have hs := deliver_all_exit_sticky cb (evs.map IcedSctkEvent.sctkEvent) d code hc
        exact exit_sticky_trans hs (h4 code hs.1)
      · refine ⟨evs :: blocks, ?_, ?_⟩
        · exact List.Forall₂.cons
            (process_window_compositor_update_events _ _ _ _ _ _ _ hpw) hb
        · rw [htr, deliver_all_trace_map_ev]
          simp

/-- The redraw pass is sticky on an exited control flow and appends only
`RedrawRequested` events to the trace. -/
theorem process_user_requests_spec (cb : Callback T U)
    (reqs : List (ObjectId × SurfaceUserRequest))
    (windows : List (ObjectId × SctkWindow)) (d d' : Deliver T U)
    (h : process_user_requests cb reqs windows d = some d') :
    (∀ code, d.cf = .exitWithCode code → ExitSticky code d d')
    ∧ ∃ rids : List ObjectId, d'.trace.map TraceEntry.ev
        = d.trace.map TraceEntry.ev ++ rids.map IcedSctkEvent.redrawRequested := by
  induction reqs generalizing d with
  | nil =>
    rw [process_user_requests] at h
    obtain rfl := Option.some.inj h
    exact ⟨fun code hc => exit_sticky_refl d code hc, [], by simp⟩
  | cons p rest ih =>
    obtain ⟨wid, req⟩ := p
    simp only [process_user_requests] at h
    have main : ∀ (redraw : Bool),
        process_user_requests cb rest windows
          (if redraw then sticky_exit_callback cb (.redrawRequested wid) d else d)
          = some d' →
        (∀ code, d.cf = .exitWithCode code → ExitSticky code d d')
        ∧ ∃ rids : List ObjectId, d'.trace.map TraceEntry.ev
            = d.trace.map TraceEntry.ev ++ rids.map IcedSctkEvent.redrawRequested := by
      intro redraw h
      cases redraw with
      | false => simpa using ih d h
      | true =>
        simp only [if_true] at h
        obtain ⟨hst, rids, htr⟩ := ih _ h
        refine ⟨?_, wid :: rids, ?_⟩
        · intro code hc
          have h1 := sticky_exit_sticky cb (.redrawRequested wid) d code hc
          exact exit_sticky_trans h1 (hst code h1.1)
        · rw [htr, sticky_trace_map_ev]
          simp
    by_cases hrf : req.refresh_frame = true
    · rw [if_pos hrf] at h
      cases hlk : windows.lookup wid with
      | none => rw [hlk] at h; simp at h
      | some w => rw [hlk] at h; exact main true (by simpa using h)
    · rw [if_neg hrf] at h
      exact main req.redraw_requested (by simpa using h)
/-- Combined guarantees of the delivery phases: the post-phase sink equals
the old back buffer, the new back buffer is empty (swap-and-drain
semantics), exit control flow is sticky across all of them, and the trace
extends exactly in the spec's phase order. -/
theorem delivery_phases_spec (cb : Callback T U) (st : SctkStateM T)
    (bb : List SctkEvent) (d : Deliver T U) (st' : SctkStateM T)
    (bb' : List SctkEvent) (d' : Deliver T U)
    (h : delivery_phases cb st bb d = some (st', bb', d')) :
    st'.sctk_events = bb ∧ bb' = []
    ∧ (∀ code, d.cf = .exitWithCode code → ExitSticky code d d')
    ∧ ∃ (ues : List (Nat × T)) (wids : List ObjectId)
        (blocks : List (List SctkEvent)) (ses : List SctkEvent)
        (rids : List ObjectId),
        List.Forall₂ windowBlockEvents wids blocks
        ∧ d'.trace.map TraceEntry.ev
          = d.trace.map TraceEntry.ev
            ++ ues.map IcedSctkEvent.userEvent
            ++ (blocks.flatten).map IcedSctkEvent.sctkEvent
            ++ ses.map IcedSctkEvent.sctkEvent
            ++ [IcedSctkEvent.mainEventsCleared]
            ++ rids.map IcedSctkEvent.redrawRequested
            ++ [IcedSctkEvent.redrawEventsCleared] := by
  unfold delivery_phases at h
  simp only [user_events_phase, Option.bind_eq_bind, Option.bind_eq_some] at h
  obtain ⟨⟨st₃, d₃⟩, hwu, h⟩ := h
  unfold window_updates_phase at hwu
  simp only [sink_phase] at h
  unfold redraw_phase at h
  simp only [Option.map_eq_some', Option.some.injEq, Prod.mk.injEq] at h
  obtain ⟨a, ⟨d₆, hpur, ha⟩, hst', hbb', hd'⟩ := h
  subst ha
  subst hst'
  subst hbb'
  subst hd'
  obtain ⟨_, _, _, hstick3, blocks, hblocks, htr3⟩ :=
    process_updates_spec cb _ _ _ _ _ hwu
  obtain ⟨hstick6, rids, htr6⟩ := process_user_requests_spec cb _ _ _ _ hpur
  refine ⟨rfl, rfl, ?_, ?_⟩
  · intro code hc
    have s1 := deliver_all_exit_sticky cb
      (st.pending_user_events.map IcedSctkEvent.userEvent) d code hc
    have s2 := exit_sticky_trans s1 (hstick3 code s1.1)
    have s3 := exit_sticky_trans s2
      (deliver_all_exit_sticky cb (st₃.sctk_events.map IcedSctkEvent.sctkEvent) d₃ code s2.1)
    have s4 := exit_sticky_trans s3
      (sticky_exit_sticky cb .mainEventsCleared _ code s3.1)
    have s5 := exit_sticky_trans s4 (hstick6 code s4.1)
    exact exit_sticky_trans s5
      (sticky_exit_sticky cb .redrawEventsCleared _ code s5.1)
  · refine ⟨st.pending_user_events, _, blocks, st₃.sctk_events, rids, hblocks, ?_⟩
    simp only [sticky_trace_map_ev, htr6, sticky_trace_map_ev, deliver_all_trace_map_ev,
      htr3]

/-- A successful control-flow dispatch delivers exactly one `NewEvents`
through the plain callback, and its start cause is never `Init`. -/
theorem control_flow_phase_ok (env : IterEnv T) (cb : Callback T U) (st : SctkStateM T)
    (d : Deliver T U) (st₁ : SctkStateM T) (d₁ : Deliver T U)
    (h : control_flow_phase env cb st d = .ok (st₁, d₁)) :
    ∃ sc, sc ≠ StartCause.init
      ∧ d₁.trace = d.trace ++ [⟨.newEvents sc, d.cf⟩] := by
  obtain ⟨ust, cf, tr⟩ := d
  cases cf with
  | exitWithCode code =>
    simp only [control_flow_phase] at h
    exact absurd h (by simp)
  | poll =>
    simp only [control_flow_phase] at h
    cases hld : env.loop_dispatch with
    | error e => rw [hld] at h; exact absurd h (by simp)
    | ok upd =>
      rw [hld] at h
      simp only [Except.ok.injEq, Prod.mk.injEq] at h
      obtain ⟨h1, h2⟩ := h
      subst h2
      exact ⟨.poll, by simp, rfl⟩
  | wait =>
    simp only [control_flow_phase] at h
    cases hld : env.loop_dispatch with
    | error e => rw [hld] at h; exact absurd h (by simp)
    | ok upd =>
      rw [hld] at h
      simp only [Except.ok.injEq, Prod.mk.injEq] at h
      obtain ⟨h1, h2⟩ := h
      subst h2
      exact ⟨.waitCancelled, by simp, rfl⟩
  | waitUntil dl =>
    simp only [control_flow_phase] at h
    cases hld : env.loop_dispatch with
    | error e => rw [hld] at h; exact absurd h (by simp)
    | ok upd =>
      rw [hld] at h
      cases hnow : env.now_lt_deadline <;> rw [hnow] at h <;>
        simp only [Bool.false_eq_true, if_false, if_true, Except.ok.injEq,
          Prod.mk.injEq] at h <;> obtain ⟨h1, h2⟩ := h <;> subst h2
      · exact ⟨.resumeTimeReached, by simp, rfl⟩
      · exact ⟨.waitCancelled, by simp, rfl⟩

/-- A completed iteration delivers its callbacks in the spec's phase
order, and from an empty back buffer it ends with an empty sink and an
empty back buffer. -/
theorem iterate_cont_spec (env : IterEnv T) (cb : Callback T U) (ust : U)
    (st st' : SctkStateM T) (cf cf' : ControlFlow) (bb bb' : List SctkEvent)
    (ust' : U) (tr : List (TraceEntry T))
    (h : iterate env cb ust st cf bb = some (.cont st' bb' ust' cf' tr)) :
    phase_ordered (tr.map TraceEntry.ev)
    ∧ st'.sctk_events = bb ∧ bb' = [] := by
  unfold iterate at h
  cases hdp : env.dispatch_pending with
  | error e => rw [hdp] at h; exact absurd h (by simp)
  | ok upd =>
    obtain ⟨updf, nd⟩ := upd
    rw [hdp] at h
    simp only at h
    cases hcfp : control_flow_phase env cb (updf st) ⟨ust, cf, []⟩ with
    | error c => rw [hcfp] at h; exact absurd h (by simp)
    | ok pr =>
      obtain ⟨st₁, d₁⟩ := pr
      rw [hcfp] at h
      simp only at h
      cases hdel : delivery_phases cb st₁ bb d₁ with
      | none => rw [hdel] at h; exact absurd h (by simp)
      | some res =>
        obtain ⟨st₂, bb₂, d₂⟩ := res
        rw [hdel] at h
        simp only [Option.some.injEq, IterResult.cont.injEq] at h
        obtain ⟨rfl, rfl, _, _, rfl⟩ := h
        obtain ⟨sc, hsc, htr1⟩ := control_flow_phase_ok env cb (updf st) _ _ _ hcfp
        obtain ⟨hsink, hbb, _, ues, wids, blocks, ses, rids, hblocks, htr2⟩ :=
          delivery_phases_spec cb _ _ _ _ _ _ hdel
        refine ⟨?_, hsink, hbb⟩
        rw [htr2, htr1]
        exact ⟨sc, ues, wids, blocks, ses, rids, hsc, hblocks, by simp⟩

/-- On an exited control flow, an iteration whose buffered dispatch does
not error breaks immediately with the stored exit code, delivering
nothing. -/
theorem iterate_exit_spec (env : IterEnv T) (cb : Callback T U) (ust : U)
    (st : SctkStateM T) (code : Int) (bb : List SctkEvent)
    (upd : (SctkStateM T → SctkStateM T) × Nat)
    (hdp : env.dispatch_pending = .ok upd) :
    iterate env cb ust st (.exitWithCode code) bb = some (.exit code) := by
  unfold iterate
  rw [hdp]
  simp [control_flow_phase]

/-- An erroring buffered dispatch breaks the iteration with the inlined
error-code mapping. -/
theorem iterate_dispatch_pending_error (env : IterEnv T) (cb : Callback T U)
    (ust : U) (st : SctkStateM T) (cf : ControlFlow) (bb : List SctkEvent)
    (e : DispatchError) (hdp : env.dispatch_pending = .error e) :
    iterate env cb ust st cf bb = some (.exit (dispatch_pending_exit_code e)) := by
  unfold iterate
  rw [hdp]

/-- An erroring event-loop dispatch breaks the iteration with
`raw_os_err` in each of the three non-exit control-flow states. -/
theorem iterate_loop_dispatch_error (env : IterEnv T) (cb : Callback T U)
    (ust : U) (st : SctkStateM T) (cf : ControlFlow) (bb : List SctkEvent)
    (ce : CalloopError) (upd : (SctkStateM T → SctkStateM T) × Nat)
    (hdp : env.dispatch_pending = .ok upd) (hld : env.loop_dispatch = .error ce)
    (hcf : cf = .poll ∨ cf = .wait ∨ ∃ dl, cf = .waitUntil dl) :
    iterate env cb ust st cf bb = some (.exit (raw_os_err ce)) := by
  unfold iterate
  rw [hdp]
  rcases hcf with rfl | rfl | ⟨dl, rfl⟩ <;> simp [control_flow_phase, hld]

/-- The loop's whole trace is the concatenation of completed, phase-ordered
iteration traces followed by the final `LoopDestroyed`. -/
theorem run_loop_shape (env : Nat → IterEnv T) (cb : Callback T U) (fuel k : Nat)
    (ust : U) (st : SctkStateM T) (cf : ControlFlow) (bb : List SctkEvent)
    (acc : List (TraceEntry T)) (code : Int) (tr : List (TraceEntry T))
    (h : run_loop env cb fuel k ust st cf bb acc = some (code, tr)) :
    ∃ its : List (List (IcedSctkEvent T)),
      tr.map TraceEntry.ev
        = acc.map TraceEntry.ev ++ (its.flatten ++ [IcedSctkEvent.loopDestroyed])
      ∧ ∀ it ∈ its, phase_ordered it := by
  induction fuel generalizing k ust st cf bb acc with
  | zero => rw [run_loop] at h; exact absurd h (by simp)
  | succ fuel ih =>
    rw [run_loop] at h
    cases hit : iterate (env k) cb ust st cf bb with
    | none => rw [hit] at h; exact absurd h (by simp)
    | some r =>
      rw [hit] at h
      cases r with
      | exit c =>
        simp only [Option.some.injEq, Prod.mk.injEq] at h
        obtain ⟨rfl, rfl⟩ := h
        exact ⟨[], by simp, by simp⟩
      | cont st₂ bb₂ ust₂ cf₂ tr₂ =>
        simp only at h
        obtain ⟨its, htr, hall⟩ := ih (k + 1) ust₂ st₂ cf₂ bb₂ (acc ++ tr₂) h
        have hpo := (iterate_cont_spec _ _ _ _ _ _ _ _ _ _ _ hit).1
        refine ⟨tr₂.map TraceEntry.ev :: its, ?_, ?_⟩
        · rw [htr]; simp
        · intro it hmem
          rcases List.mem_cons.mp hmem with rfl | h2
          · exact hpo
          · exact hall it h2

/-- A full `run_return` trace: `Init` first, phase-ordered iterations,
`LoopDestroyed` last. -/
theorem run_return_shape (fuel : Nat) (env : Nat → IterEnv T) (cb : Callback T U)
    (ust : U) (st : SctkStateM T) (code : Int) (tr : List (TraceEntry T))
    (h : run_return fuel env cb ust st = some (code, tr)) :
    ∃ its : List (List (IcedSctkEvent T)),
      tr.map TraceEntry.ev
        = IcedSctkEvent.newEvents .init :: (its.flatten ++ [IcedSctkEvent.loopDestroyed])
      ∧ ∀ it ∈ its, phase_ordered it := by
  unfold run_return at h
  obtain ⟨its, htr, hall⟩ := run_loop_shape _ _ _ _ _ _ _ _ _ _ _ h
  exact ⟨its, by simpa using htr, hall⟩

/-- C4: exit stickiness.  Once the stored control flow is
`ExitWithCode code`: a single sticky delivery hands the callback a
synthetic exit value whose mutation is discarded, so the stored flow
cannot change (first conjunct); the delivery phases of the current
iteration keep the stored flow `ExitWithCode code` and hand every
remaining callback invocation `ExitWithCode code` on entry (second
conjunct); and the next loop iteration — provided the buffered dispatch
does not itself error, the transport-failure path of C7 — breaks before
any delivery, emits only the final `LoopDestroyed` and returns exactly
`code` (third conjunct). -/
theorem C4_exit_with_code_is_sticky (T U : Type) (env : Nat → IterEnv T)
    (cb : Callback T U) (evt : IcedSctkEvent T) (d : Deliver T U) (ust : U)
    (st : SctkStateM T) (bb : List SctkEvent) (acc : List (TraceEntry T))
    (code : Int) (fuel k : Nat) (upd : (SctkStateM T → SctkStateM T) × Nat)
    (hd : d.cf = .exitWithCode code)
    (hdp : (env k).dispatch_pending = .ok upd) :
    (sticky_exit_callback cb evt d
      = { d with
          ust := (cb d.ust evt (.exitWithCode code)).1,
          trace := d.trace ++ [⟨evt, .exitWithCode code⟩] })
    ∧ (∀ st' bb' d', delivery_phases cb st bb d = some (st', bb', d') →
        ExitSticky code d d')
    ∧ run_loop env cb (fuel + 1) k ust st (.exitWithCode code) bb acc
      = some (code, acc ++ [⟨.loopDestroyed, .exitWithCode code⟩]) := by
  refine ⟨?_, ?_, ?_⟩
  · obtain ⟨u0, c0, t0⟩ := d
    cases hd
    rfl
  · intro st' bb' d' hdel
    exact (delivery_phases_spec cb _ _ _ _ _ _ hdel).2.2.1 code hd
  · simp [run_loop, iterate_exit_spec (env k) cb ust st code bb upd hdp]

/-- Witness for C4: a callback that always asks for `Poll` cannot unexit a
loop that sits at `ExitWithCode 5`: the delivery phases on the empty state
only hand it the synthetic exit value, and the loop returns 5. -/
theorem C4_exit_with_code_is_sticky_witness :
    Deliver.cf witness_exit_d = .exitWithCode 5
    ∧ (witness_env 0).dispatch_pending = .ok (id, 0)
    ∧ sticky_exit_callback witness_cb .mainEventsCleared witness_exit_d
      = { witness_exit_d with
          ust := (witness_cb witness_exit_d.ust .mainEventsCleared (.exitWithCode 5)).1,
          trace := witness_exit_d.trace ++ [⟨.mainEventsCleared, .exitWithCode 5⟩] }
    ∧ ExitSticky 5 witness_exit_d
        ⟨(), .exitWithCode 5,
          [⟨.mainEventsCleared, .exitWithCode 5⟩, ⟨.redrawEventsCleared, .exitWithCode 5⟩]⟩
    ∧ run_loop witness_env witness_cb 1 0 () {} (.exitWithCode 5) [] []
      = some (5, [] ++ [⟨.loopDestroyed, .exitWithCode 5⟩]) := by
  have h := C4_exit_with_code_is_sticky Unit Unit witness_env witness_cb
    .mainEventsCleared witness_exit_d () {} [] [] 5 0 0 (id, 0) rfl rfl
  exact ⟨rfl, rfl, h.1, h.2.1 {} [] _ rfl, h.2.2⟩

/-- C5: the pending sink is moved out by the swap.  The drain phase
delivers exactly the events present in the sink when the swap happens,
the sink becomes the (empty) back buffer, and the drained back buffer is
left empty (first three conjuncts); hence across any completed iteration
started with the loop's empty back buffer the post-iteration sink and
back buffer are empty again (fourth conjunct): no event delivered by the
drain was appended to the sink during that same drain, and an event
appended afterwards — by the following iteration's protocol dispatch — is
delivered on that following iteration. -/
theorem C5_sink_swapped_before_delivery (T U : Type) (cb : Callback T U)
    (env : IterEnv T) (st : SctkStateM T) (bb : List SctkEvent)
    (d : Deliver T U) (ust : U) (cf : ControlFlow) :
    ((sink_phase cb st bb d).1.sctk_events = bb)
    ∧ ((sink_phase cb st bb d).2.1 = [])
    ∧ (((sink_phase cb st bb d).2.2.trace).map TraceEntry.ev
        = d.trace.map TraceEntry.ev ++ st.sctk_events.map IcedSctkEvent.sctkEvent)
    ∧ (∀ st' bb' ust' cf' tr,
        iterate env cb ust st cf [] = some (.cont st' bb' ust' cf' tr) →
        st'.sctk_events = [] ∧ bb' = []) := by
  refine ⟨rfl, rfl, ?_, ?_⟩
  · exact deliver_all_trace_map_ev cb (st.sctk_events.map IcedSctkEvent.sctkEvent) d
  · intro st' bb' ust' cf' tr hit
    have h := iterate_cont_spec _ _ _ _ _ _ _ _ _ _ _ hit
    exact ⟨h.2.1, h.2.2⟩

/-- Witness for C5: an iteration of the environment that dispatches
nothing, on a state whose sink already holds `Draw 7`, delivers exactly
that event in its drain phase and ends with empty sink and back buffer. -/
theorem C5_sink_swapped_before_delivery_witness :
    ((sink_phase witness_cb witness_run_state [] witness_exit_d).1.sctk_events = [])
    ∧ (((sink_phase witness_cb witness_run_state [] witness_exit_d).2.2.trace).map
        TraceEntry.ev
      = witness_exit_d.trace.map TraceEntry.ev
        ++ (witness_run_state.sctk_events.map IcedSctkEvent.sctkEvent))
    ∧ iterate (witness_env 0) witness_cb () witness_run_state .poll []
      = some (.cont { witness_run_state with
          sctk_events := [], window_user_requests := [(7, default)] } [] () .poll
          [⟨.newEvents .poll, .poll⟩, ⟨.sctkEvent (.draw 7), .poll⟩,
           ⟨.mainEventsCleared, .poll⟩, ⟨.redrawRequested 7, .poll⟩,
           ⟨.redrawEventsCleared, .poll⟩])
    ∧ ({ witness_run_state with
          sctk_events := [], window_user_requests := [(7, default)]
          : SctkStateM Unit }).sctk_events = [] := by
  have h := C5_sink_swapped_before_delivery Unit Unit witness_cb (witness_env 0)
    witness_run_state [] witness_exit_d () .poll
  refine ⟨h.1, h.2.2.1, by rfl, ?_⟩
  exact (h.2.2.2 _ _ _ _ _ (by rfl)).1

/-- C7: a failing dispatch of buffered protocol messages terminates the
loop at once — nothing is delivered after it but the final
`LoopDestroyed`, and the result does not depend on the environment at any
later iteration, so there is no retry — returning the OS error's raw code
when one is available and 1 otherwise, bad-message and protocol errors
included (first conjunct and the code table); an error of the blocking
event-loop dispatch likewise terminates the loop through `raw_os_err`
(second conjunct). -/
theorem C7_transport_error_exit_codes (T U : Type) (env : Nat → IterEnv T)
    (cb : Callback T U) (ust : U) (st : SctkStateM T) (cf : ControlFlow)
    (bb : List SctkEvent) (acc : List (TraceEntry T)) (fuel k : Nat) (c : Int) :
    (∀ e, (env k).dispatch_pending = .error e →
      run_loop env cb (fuel + 1) k ust st cf bb acc
        = some (dispatch_pending_exit_code e, acc ++ [⟨.loopDestroyed, cf⟩]))
    ∧ (∀ ce upd, (env k).dispatch_pending = .ok upd →
        (env k).loop_dispatch = .error ce →
        (cf = .poll ∨ cf = .wait ∨ ∃ dl, cf = .waitUntil dl) →
        run_loop env cb (fuel + 1) k ust st cf bb acc
          = some (raw_os_err ce, acc ++ [⟨.loopDestroyed, cf⟩]))
    ∧ dispatch_pending_exit_code (.backendIo (some c)) = c
    ∧ dispatch_pending_exit_code (.backendIo none) = 1
    ∧ dispatch_pending_exit_code .badMessage = 1
    ∧ dispatch_pending_exit_code .backendProtocol = 1
    ∧ raw_os_err (.ioError (some c)) = c
    ∧ raw_os_err (.ioError none) = 1
    ∧ raw_os_err .other = 1 := by
  refine ⟨?_, ?_, rfl, rfl, rfl, rfl, rfl, rfl, rfl⟩
  · intro e hdp
    simp [run_loop, iterate_dispatch_pending_error (env k) cb ust st cf bb e hdp]
  · intro ce upd hdp hld hcf
    simp [run_loop, iterate_loop_dispatch_error (env k) cb ust st cf bb ce upd hdp hld hcf]

/-- Witness for C7: a buffered-dispatch I/O error with OS code 7 makes the
loop return 7; an event-loop dispatch I/O error without an OS code makes
it return 1. -/
theorem C7_transport_error_exit_codes_witness :
    (witness_env_io_error 0).dispatch_pending = .error (.backendIo (some 7))
    ∧ run_loop witness_env_io_error witness_cb 1 0 () {} .poll [] []
      = some (dispatch_pending_exit_code (.backendIo (some 7)),
          [] ++ [⟨.loopDestroyed, .poll⟩])
    ∧ dispatch_pending_exit_code (.backendIo (some 7)) = 7
    ∧ (witness_env_calloop_error 0).dispatch_pending = .ok (id, 0)
    ∧ (witness_env_calloop_error 0).loop_dispatch = .error (.ioError none)
    ∧ run_loop witness_env_calloop_error witness_cb 1 0 () {} .poll [] []
      = some (raw_os_err (.ioError none), [] ++ [⟨.loopDestroyed, .poll⟩])
    ∧ raw_os_err (.ioError none) = 1 := by
  have h1 := C7_transport_error_exit_codes Unit Unit witness_env_io_error witness_cb
    () {} .poll [] [] 0 0 7
  have h2 := C7_transport_error_exit_codes Unit Unit witness_env_calloop_error witness_cb
    () {} .poll [] [] 0 0 7
  exact ⟨rfl, h1.1 _ rfl, rfl, rfl, rfl,
    h2.2.1 (.ioError none) (id, 0) rfl rfl (Or.inl rfl), rfl⟩

/-- C6: within every completed run-loop iteration the callbacks come in
the fixed order — one `NewEvents` (`Poll`/`WaitCancelled`/
`ResumeTimeReached` according to the control-flow state, never `Init`
inside the loop), then all pending user events, then the per-window
compositor updates each as scale-factor-before-configure-before-close,
then the drained sink events, then `MainEventsCleared`, then one
`RedrawRequested` per surface needing it, then `RedrawEventsCleared`
(first conjunct); and a full run delivers `NewEvents(Init)` as the very
first callback, then a concatenation of such phase-ordered iteration
traces, with `LoopDestroyed` as the final callback after the loop exits
(second conjunct). -/
theorem C6_fixed_phase_order (T U : Type) (env : Nat → IterEnv T) (envi : IterEnv T)
    (cb : Callback T U) (ust : U) (st : SctkStateM T) (cf : ControlFlow)
    (bb : List SctkEvent) (fuel : Nat) (code : Int) :
    (∀ st' bb' ust' cf' tr,
      iterate envi cb ust st cf bb = some (.cont st' bb' ust' cf' tr) →
      phase_ordered (tr.map TraceEntry.ev))
    ∧ (∀ tr, run_return fuel env cb ust st = some (code, tr) →
        ∃ its : List (List (IcedSctkEvent T)),
          tr.map TraceEntry.ev
            = IcedSctkEvent.newEvents .init
              :: (its.flatten ++ [IcedSctkEvent.loopDestroyed])
          ∧ ∀ it ∈ its, phase_ordered it) := by
  constructor
  · intro st' bb' ust' cf' tr hit
    exact (iterate_cont_spec _ _ _ _ _ _ _ _ _ _ _ hit).1
  · intro tr h
    exact run_return_shape _ _ _ _ _ _ _ h

/-- Witness for C6: a two-iteration run — the state holds one sink event
and one redraw request, the callback exits after the first
`RedrawEventsCleared` — produces exactly the claimed order: `Init`, one
phase-ordered iteration, `LoopDestroyed`. -/
theorem C6_fixed_phase_order_witness :
    run_return 2 witness_env witness_exit_cb () witness_run_state
      = some (0,
        [⟨.newEvents .init, .poll⟩, ⟨.newEvents .poll, .poll⟩,
         ⟨.sctkEvent (.draw 7), .poll⟩, ⟨.mainEventsCleared, .poll⟩,
         ⟨.redrawRequested 7, .poll⟩, ⟨.redrawEventsCleared, .poll⟩,
         ⟨.loopDestroyed, .exitWithCode 0⟩])
    ∧ ∃ its : List (List (IcedSctkEvent Unit)),
        [IcedSctkEvent.newEvents (T := Unit) .init, .newEvents .poll,
            .sctkEvent (.draw 7), .mainEventsCleared, .redrawRequested 7,
            .redrawEventsCleared, .loopDestroyed]
          = IcedSctkEvent.newEvents .init
            :: (its.flatten ++ [IcedSctkEvent.loopDestroyed])
        ∧ ∀ it ∈ its, phase_ordered it := by
  constructor
  · rfl
  · have h := (C6_fixed_phase_order Unit Unit witness_env (witness_env 0)
      witness_exit_cb () witness_run_state .poll [] 2 0).2
      [⟨.newEvents .init, .poll⟩, ⟨.newEvents .poll, .poll⟩,
       ⟨.sctkEvent (.draw 7), .poll⟩, ⟨.mainEventsCleared, .poll⟩,
       ⟨.redrawRequested 7, .poll⟩, ⟨.redrawEventsCleared, .poll⟩,
       ⟨.loopDestroyed, .exitWithCode 0⟩] (by rfl)
    simpa using h

end IcedSctk
